import Mathlib

/-!
# ForgeFFI network-interface control engine — verification development

Shallow embedding of the network-interface control engine of the ForgeFFI
repository (crates `forgeffi-base`, `forgeffi-sys` (netif), `forgeffi-net-ffi`)
and proofs of the specification claims about it.

Conventions of the embedding:
* Rust machine integers (`u8`, `u32`, `u64`, `usize`) are modelled as `Nat`;
  every value produced by the engine fits its Rust type, and no claim depends
  on wrap-around behaviour.
* `Result<T, ForgeFfiError>` becomes `Except ForgeFfiError T`; `Option` stays
  `Option`.
* External effects (process spawning, the filesystem) are modelled by explicit
  oracle records plus effect traces; pure library calls of the Rust standard
  library that the code relies on (`IpAddr::from_str`, `u32::from_str_radix`,
  `u8::from_str`, `str::split`) are re-implemented faithfully.
* JSON wire payloads are modelled as a `Json` tree; serde-derived
  serialization/deserialization is modelled field by field, following the
  `#[serde(...)]` attributes of the source (`skip_serializing_if` /
  `default` / `rename_all = "snake_case"` / internal tag `op`).
-/

namespace ForgeFFI

/-! ## Data model (`forgeffi-base/src/error.rs`, `forgeffi-base/src/netif.rs`) -/

/-- `ABI_VERSION` of `forgeffi-base/src/lib.rs`. -/
def ABI_VERSION : Nat := 1

/-- `ErrorCode` of `forgeffi-base/src/error.rs`. -/
inductive ErrorCode where
  | Ok
  | InvalidArgument
  | NotFound
  | Unsupported
  | PermissionDenied
  | SystemError
  | Unknown
deriving DecidableEq, Repr

/-- `ErrorCode::as_i32` (the `#[repr(i32)]` discriminants). -/
def ErrorCode.as_i32 : ErrorCode → Nat
  | .Ok => 0
  | .InvalidArgument => 1
  | .NotFound => 2
  | .Unsupported => 3
  | .PermissionDenied => 4
  | .SystemError => 5
  | .Unknown => 999

/-- `ForgeFfiError` of `forgeffi-base/src/error.rs`. -/
structure ForgeFfiError where
  code : ErrorCode
  message : String
deriving DecidableEq, Repr

def ForgeFfiError.invalid_argument (m : String) : ForgeFfiError := ⟨.InvalidArgument, m⟩

def ForgeFfiError.not_found (m : String) : ForgeFfiError := ⟨.NotFound, m⟩

def ForgeFfiError.unsupported (m : String) : ForgeFfiError := ⟨.Unsupported, m⟩

def ForgeFfiError.permission_denied (m : String) : ForgeFfiError := ⟨.PermissionDenied, m⟩

def ForgeFfiError.system_error (m : String) : ForgeFfiError := ⟨.SystemError, m⟩

/-- `IfaceKind` of `forgeffi-base/src/netif.rs`. -/
inductive IfaceKind where
  | Unknown
  | Physical
  | Virtual
  | Loopback
  | Tunnel
deriving DecidableEq, Repr

/-- `AdminState` of `forgeffi-base/src/netif.rs`. -/
inductive AdminState where
  | Unknown
  | Up
  | Down
deriving DecidableEq, Repr

/-- `OperState` of `forgeffi-base/src/netif.rs`. -/
inductive OperState where
  | Unknown
  | Up
  | Down
  | Dormant
  | LowerLayerDown
deriving DecidableEq, Repr

/-- `IpScope` of `forgeffi-base/src/netif.rs`. -/
inductive IpScope where
  | Unknown
  | Host
  | Link
  | Site
  | Global
deriving DecidableEq, Repr

/-- `IpOrigin` of `forgeffi-base/src/netif.rs`. -/
inductive IpOrigin where
  | Unknown
  | Static
  | Dhcp
deriving DecidableEq, Repr

/-- `IpAddrEntry` of `forgeffi-base/src/netif.rs`; the `IfaceFlags` /
`IpAddrFlags` newtypes around `u32` are modelled as their inner `Nat`. -/
structure IpAddrEntry where
  ip : String
  prefix_len : Nat
  scope : Option IpScope
  origin : Option IpOrigin
  flags : Option Nat
deriving DecidableEq, Repr

/-- `NetIfCapabilities` of `forgeffi-base/src/netif.rs`. -/
structure NetIfCapabilities where
  can_set_admin_state : Bool
  can_set_mtu : Bool
  can_add_del_ip : Bool
  can_set_dhcp : Bool
  can_set_dns : Bool
  notes : Option String
deriving DecidableEq, Repr

/-- `NetInterface` of `forgeffi-base/src/netif.rs`. -/
structure NetInterface where
  if_index : Nat
  name : String
  display_name : Option String
  kind : IfaceKind
  is_physical : Option Bool
  admin_state : AdminState
  oper_state : Option OperState
  flags : Nat
  mac : Option String
  mtu : Option Nat
  speed_bps : Option Nat
  ipv4 : List IpAddrEntry
  ipv6 : List IpAddrEntry
  capabilities : NetIfCapabilities
deriving DecidableEq, Repr

/-- `IfaceSelector` of `forgeffi-base/src/netif.rs`. -/
structure IfaceSelector where
  if_index : Option Nat
  name : Option String
deriving DecidableEq, Repr

/-- `NetIfOp` of `forgeffi-base/src/netif.rs`. -/
inductive NetIfOp where
  | SetAdminState (up : Bool)
  | SetMtu (mtu : Nat)
  | AddIp (ip : String) (prefix_len : Nat)
  | DelIp (ip : String) (prefix_len : Nat)
  | SetIpv4Dhcp (enable : Bool)
  | SetIpv4Static (ip : String) (prefix_len : Nat) (gateway : Option String)
deriving DecidableEq, Repr

/-- `NetIfOpResult` of `forgeffi-base/src/netif.rs`. -/
structure NetIfOpResult where
  i : Nat
  ok : Bool
  error : Option ForgeFfiError
deriving DecidableEq, Repr

/-- `NetIfListResponse` of `forgeffi-base/src/netif.rs`. -/
structure NetIfListResponse where
  abi : Nat
  items : List NetInterface
deriving DecidableEq, Repr

/-- `NetIfApplyRequest` of `forgeffi-base/src/netif.rs`. -/
structure NetIfApplyRequest where
  abi : Nat
  target : IfaceSelector
  ops : List NetIfOp
deriving DecidableEq, Repr

/-- `NetIfApplyResponse` of `forgeffi-base/src/netif.rs`. -/
structure NetIfApplyResponse where
  abi : Nat
  ok : Bool
  results : List NetIfOpResult
deriving DecidableEq, Repr

/-! ## Rust standard library: IP address literal parsing

`validate_op` calls `str::parse::<std::net::IpAddr>()`, whose behaviour is
given by `core/net/parser.rs` of the Rust standard library.  The parser is
re-implemented here over `List Char` in the exact structure of that file:
`read_number` (greedy digit loop with checked arithmetic, a digit-count limit
and a leading-zero rule), `read_separator`, `read_ipv4_addr`, `read_groups`,
`read_ipv6_addr`, `read_ip_addr`, and the final must-consume-all check of
`parse_with`.  Backtracking (`read_atomically`) is implicit: every reader
returns `none` on failure and the caller keeps the original input. -/

/-- `char::to_digit(radix)` of the Rust standard library. -/
def digitVal (radix : Nat) (c : Char) : Option Nat :=
  let d : Option Nat :=
    if '0' ≤ c ∧ c ≤ '9' then some (c.toNat - 48)
    else if 'a' ≤ c ∧ c ≤ 'z' then some (c.toNat - 97 + 10)
    else if 'A' ≤ c ∧ c ≤ 'Z' then some (c.toNat - 65 + 10)
    else none
  match d with
  | some v => if v < radix then some v else none
  | none => none

/-- Digit loop of `Parser::read_number`: consume digits greedily, failing the
whole read on checked-arithmetic overflow (`bound` is the maximum of the Rust
integer type) or when more than `maxD` digits appear.  Returns the value, the
digit count, and the unconsumed rest. -/
def ipDigitsLoop (radix bound maxD : Nat) : List Char → Nat → Nat → Option (Nat × Nat × List Char)
  | [], acc, count => some (acc, count, [])
  | c :: rest, acc, count =>
    match digitVal radix c with
    | none => some (acc, count, c :: rest)
    | some d =>
      if acc * radix + d > bound then none
      else if count + 1 > maxD then none
      else ipDigitsLoop radix bound maxD rest (acc * radix + d) (count + 1)

/-- `Parser::read_number(radix, Some(max_digits), allow_zero_prefix)`. -/
def ipReadNumber (radix bound maxD : Nat) (allowZeroPrefix : Bool) (s : List Char) :
    Option (Nat × List Char) :=
  let hasLeadingZero := match s with
    | '0' :: _ => true
    | _ => false
  match ipDigitsLoop radix bound maxD s 0 0 with
  | none => none
  | some (acc, count, rest) =>
    if count = 0 then none
    else if allowZeroPrefix = false ∧ hasLeadingZero = true ∧ count > 1 then none
    else some (acc, rest)

/-- `Parser::read_given_char`. -/
def readGivenChar (c : Char) : List Char → Option (List Char)
  | [] => none
  | c' :: rest => if c' = c then some rest else none

/-- `Parser::read_separator`: every group after the first is preceded by the
separator character. -/
def readSep {α : Type} (sep : Char) (i : Nat) (inner : List Char → Option (α × List Char))
    (s : List Char) : Option (α × List Char) :=
  if i = 0 then inner s
  else
    match readGivenChar sep s with
    | none => none
    | some rest => inner rest

/-- `Parser::read_ipv4_addr`: four octets (`read_number(10, Some(3), false)`
over `u8`) separated by dots. -/
def readIpv4 (s : List Char) : Option ((Nat × Nat × Nat × Nat) × List Char) :=
  match readSep '.' 0 (ipReadNumber 10 255 3 false) s with
  | none => none
  | some (a, s1) =>
    match readSep '.' 1 (ipReadNumber 10 255 3 false) s1 with
    | none => none
    | some (b, s2) =>
      match readSep '.' 2 (ipReadNumber 10 255 3 false) s2 with
      | none => none
      | some (c, s3) =>
        match readSep '.' 3 (ipReadNumber 10 255 3 false) s3 with
        | none => none
        | some (d, s4) => some ((a, b, c, d), s4)

/-- `read_groups` of `Parser::read_ipv6_addr`: reads up to `limit` 16-bit
groups starting at slot `i`, allowing a trailing embedded IPv4 address when at
least two slots remain.  Returns the groups read, whether the IPv4 form was
used, and the unconsumed rest. -/
def readGroupsAux (limit i : Nat) (s : List Char) : List Nat × Bool × List Char :=
  if _h : i < limit then
    match (if i + 1 < limit then readSep ':' i readIpv4 s else none) with
    | some ((a, b, c, d), rest) => ([a * 256 + b, c * 256 + d], true, rest)
    | none =>
      match readSep ':' i (ipReadNumber 16 65535 4 true) s with
      | none => ([], false, s)
      | some (g, rest) =>
        let r := readGroupsAux limit (i + 1) rest
        (g :: r.1, r.2.1, r.2.2)
  else ([], false, s)
termination_by limit - i

/-- `Parser::read_ipv6_addr`: head groups, then `::`, then tail groups; the
result is the head, a run of zero groups, and the tail (eight groups total). -/
def readIpv6 (s : List Char) : Option (List Nat × List Char) :=
  let r := readGroupsAux 8 0 s
  let head := r.1
  let headV4 := r.2.1
  let s1 := r.2.2
  if head.length = 8 then some (head, s1)
  else if headV4 then none
  else
    match readGivenChar ':' s1 with
    | none => none
    | some s2 =>
      match readGivenChar ':' s2 with
      | none => none
      | some s3 =>
        let limit := 8 - (head.length + 1)
        let t := readGroupsAux limit 0 s3
        let tail := t.1
        some (head ++ List.replicate (8 - head.length - tail.length) 0 ++ tail, t.2.2)

/-- The result of parsing an IP literal (`std::net::IpAddr`). -/
inductive IpParsed where
  | v4 (a b c d : Nat)
  | v6 (groups : List Nat)
deriving DecidableEq, Repr

/-- `Parser::read_ip_addr`: IPv4 first, otherwise IPv6. -/
def readIpAddr (s : List Char) : Option (IpParsed × List Char) :=
  match readIpv4 s with
  | some ((a, b, c, d), rest) => some (.v4 a b c d, rest)
  | none =>
    match readIpv6 s with
    | some (gs, rest) => some (.v6 gs, rest)
    | none => none

/-- `str::parse::<std::net::IpAddr>()`: the reader must consume the whole
string (`Parser::parse_with`). -/
def parseIpAddr (s : String) : Option IpParsed :=
  match readIpAddr s.toList with
  | some (r, []) => some r
  | _ => none

/-- Whether a parse result is an IPv4 address. -/
def IpParsed.isV4 : IpParsed → Bool
  | .v4 _ _ _ _ => true
  | .v6 _ => false

/-! ## Validator and target resolver (`forgeffi-sys/src/netif/mod.rs`) -/

/-- `NETIF_ABI_VERSION` of `forgeffi-sys/src/netif/mod.rs`. -/
def NETIF_ABI_VERSION : Nat := ABI_VERSION

/-- `validate_op` of `forgeffi-sys/src/netif/mod.rs`, translated clause by
clause. -/
def validate_op : NetIfOp → Except ForgeFfiError Unit
  | .SetAdminState _ => .ok ()
  | .SetMtu mtu =>
    if mtu = 0 then .error (.invalid_argument "mtu 不能为 0")
    else .ok ()
  | .AddIp ip prefix_len =>
    if prefix_len = 0 then .error (.invalid_argument "添加 IP 不允许 prefix_len=0")
    else
      match parseIpAddr ip with
      | none => .error (.invalid_argument ("非法 IP: " ++ ip))
      | some (.v4 _ _ _ _) =>
        if prefix_len > 32 then .error (.invalid_argument "IPv4 prefix_len 必须在 0..=32")
        else .ok ()
      | some (.v6 _) =>
        if prefix_len > 128 then .error (.invalid_argument "IPv6 prefix_len 必须在 0..=128")
        else .ok ()
  | .DelIp ip prefix_len =>
    match parseIpAddr ip with
    | none => .error (.invalid_argument ("非法 IP: " ++ ip))
    | some (.v4 _ _ _ _) =>
      if prefix_len > 32 then .error (.invalid_argument "IPv4 prefix_len 必须在 0..=32")
      else .ok ()
    | some (.v6 _) =>
      if prefix_len > 128 then .error (.invalid_argument "IPv6 prefix_len 必须在 0..=128")
      else .ok ()
  | .SetIpv4Dhcp _ => .ok ()
  | .SetIpv4Static ip prefix_len gateway =>
    if prefix_len = 0 then .error (.invalid_argument "IPv4 prefix_len 必须在 1..=32")
    else if prefix_len > 32 then .error (.invalid_argument "IPv4 prefix_len 必须在 1..=32")
    else
      match parseIpAddr ip with
      | none => .error (.invalid_argument ("非法 IP: " ++ ip))
      | some a =>
        if ¬a.isV4 then .error (.invalid_argument "SetIpv4Static 仅支持 IPv4")
        else
          match gateway with
          | none => .ok ()
          | some gw =>
            match parseIpAddr gw with
            | none => .error (.invalid_argument ("非法网关: " ++ gw))
            | some g =>
              if ¬g.isV4 then .error (.invalid_argument "网关必须是 IPv4")
              else .ok ()

/-- `ResolvedTarget` of `forgeffi-sys/src/netif/mod.rs`.  The Windows variant
carries `if_index` and `name`, the other platforms only `name`; the model
keeps the superset, and the non-Windows dispatchers only read `name`. -/
structure ResolvedTarget where
  if_index : Nat
  name : String
deriving DecidableEq, Repr

/-- `resolve_target` of `forgeffi-sys/src/netif/mod.rs`. -/
def resolve_target (sel : IfaceSelector) (ifaces : List NetInterface) :
    Except ForgeFfiError ResolvedTarget :=
  match sel.if_index with
  | some idx =>
    if idx ≠ 0 then
      match ifaces.find? (fun it => it.if_index = idx) with
      | some i => .ok ⟨i.if_index, i.name⟩
      | none => .error (.not_found ("未找到网卡 if_index=" ++ toString idx))
    else
      resolveByName sel ifaces
  | none => resolveByName sel ifaces
where
  /-- The name branch of `resolve_target` (reached when `if_index` is absent
  or zero). -/
  resolveByName (sel : IfaceSelector) (ifaces : List NetInterface) :
      Except ForgeFfiError ResolvedTarget :=
    match sel.name with
    | some name =>
      match ifaces.find? (fun it => it.name = name) with
      | some i => .ok ⟨i.if_index, i.name⟩
      | none => .error (.not_found ("未找到网卡 name=" ++ name))
    | none => .error (.invalid_argument "target 必须至少包含 if_index 或 name")

/-! ## Apply orchestrator (`forgeffi-sys/src/netif/mod.rs`)

The per-platform effects (`platform::list_interfaces`, `platform::apply_one`)
are abstracted as an oracle record: the engine is single-threaded and
synchronous, so one deterministic outcome per call suffices for the claims
about the orchestrator. -/

/-- The platform oracle seen by `apply_request`. -/
structure Platform where
  listResult : Except ForgeFfiError (List NetInterface)
  applyOne : ResolvedTarget → NetIfOp → Except ForgeFfiError Unit

/-- The per-operation body of the `apply_request` loop:
`validate_op(&op).and_then(|_| platform::apply_one(&target, &op))`. -/
def dispatchOp (P : Platform) (t : ResolvedTarget) (op : NetIfOp) : Except ForgeFfiError Unit :=
  match validate_op op with
  | .error e => .error e
  | .ok _ => P.applyOne t op

/-- Builds the `NetIfOpResult` recorded for operation `i` from the dispatch
outcome (the two `results.push` arms of the loop). -/
def mkOpResult (i : Nat) : Except ForgeFfiError Unit → NetIfOpResult
  | .ok _ => ⟨i, true, none⟩
  | .error e => ⟨i, false, some e⟩

/-- The `for (i, op) in req.ops.iter().cloned().enumerate()` loop of
`apply_request`: returns the collected results and the `all_ok` flag. -/
def applyOps (P : Platform) (t : ResolvedTarget) : Nat → List NetIfOp → List NetIfOpResult × Bool
  | _, [] => ([], true)
  | i, op :: rest =>
    let head := mkOpResult i (dispatchOp P t op)
    let r := applyOps P t (i + 1) rest
    (head :: r.1, head.ok && r.2)

/-- `apply_request` of `forgeffi-sys/src/netif/mod.rs`. -/
def apply_request (P : Platform) (req : NetIfApplyRequest) :
    Except ForgeFfiError NetIfApplyResponse :=
  if req.abi ≠ NETIF_ABI_VERSION then
    .error (.invalid_argument
      ("abi 版本不匹配: expected=" ++ toString NETIF_ABI_VERSION ++ " got=" ++ toString req.abi))
  else
    match P.listResult with
    | .error e => .error e
    | .ok ifaces =>
      match resolve_target req.target ifaces with
      | .error e => .error e
      | .ok target =>
        let r := applyOps P target 0 req.ops
        .ok ⟨NETIF_ABI_VERSION, r.2, r.1⟩

/-- `list_response` of `forgeffi-sys/src/netif/mod.rs`. -/
def list_response (P : Platform) : Except ForgeFfiError NetIfListResponse :=
  match P.listResult with
  | .error e => .error e
  | .ok items => .ok ⟨NETIF_ABI_VERSION, items⟩

/-! ## JSON wire model and serde codecs

The wire format is UTF-8 JSON text produced by `serde_json`.  It is modelled
as a `Json` tree; the derived `Serialize`/`Deserialize` impls of
`forgeffi-base/src/netif.rs` and `error.rs` are modelled field by field:
`#[serde(rename_all = "snake_case")]` enum variant names, the internal tag
`op` of `NetIfOp`, `skip_serializing_if = "Option::is_none"` (the field is
omitted when `None`), `#[serde(default)]` (a missing field deserializes to
the default), and the one-field tuple structs `IfaceFlags`/`IpAddrFlags`
(serialized as the bare inner integer). -/

/-- JSON values (all numbers appearing on this wire are unsigned integers). -/
inductive Json where
  | null
  | bool (b : Bool)
  | num (n : Nat)
  | str (s : String)
  | arr (items : List Json)
  | obj (fields : List (String × Json))

/-- Member lookup in a JSON object (first binding wins, as in `serde_json`). -/
def lookupField (k : String) : List (String × Json) → Option Json
  | [] => none
  | (k', v) :: rest => if k' = k then some v else lookupField k rest

/-- Field access used by the decoders. -/
def Json.getField (j : Json) (k : String) : Option Json :=
  match j with
  | .obj fields => lookupField k fields
  | _ => none

def Json.asStr : Json → Option String
  | .str s => some s
  | _ => none

def Json.asNat : Json → Option Nat
  | .num n => some n
  | _ => none

def Json.asBool : Json → Option Bool
  | .bool b => some b
  | _ => none

/-- Shortcut evaluation of a sequence of fallible element conversions, as
`collect::<Option<Vec<_>>>()` / serde sequence deserialization: the first
failing element fails the whole list. -/
def mapMOpt {α β : Type} (f : α → Option β) : List α → Option (List β)
  | [] => some []
  | x :: xs =>
    match f x with
    | none => none
    | some y =>
      match mapMOpt f xs with
      | none => none
      | some ys => some (y :: ys)

/-- Serialization of an optional field with
`#[serde(skip_serializing_if = "Option::is_none")]`. -/
def optField {α : Type} (k : String) (f : α → Json) : Option α → List (String × Json)
  | none => []
  | some v => [(k, f v)]

/-- Whether a JSON value is `null`. -/
def Json.isNull : Json → Bool
  | .null => true
  | _ => false

/-- Deserialization of an `Option` field with `#[serde(default)]`: a missing
field or an explicit `null` is `None`. -/
def decodeOptField {α : Type} (j : Json) (k : String) (dec : Json → Option α) :
    Option (Option α) :=
  match j.getField k with
  | none => some none
  | some v => if v.isNull then some none else (dec v).map some

/-- Deserialization of a `Vec` field with `#[serde(default)]`. -/
def decodeVecField {α : Type} (j : Json) (k : String) (dec : Json → Option α) :
    Option (List α) :=
  match j.getField k with
  | none => some []
  | some (.arr xs) => mapMOpt dec xs
  | some _ => none

/-- Deserialization of a mandatory field. -/
def decodeReqField {α : Type} (j : Json) (k : String) (dec : Json → Option α) : Option α :=
  (j.getField k).bind dec

def encodeErrorCode : ErrorCode → Json
  | .Ok => .str "Ok"
  | .InvalidArgument => .str "InvalidArgument"
  | .NotFound => .str "NotFound"
  | .Unsupported => .str "Unsupported"
  | .PermissionDenied => .str "PermissionDenied"
  | .SystemError => .str "SystemError"
  | .Unknown => .str "Unknown"

def decodeErrorCode (j : Json) : Option ErrorCode :=
  match j with
  | .str "Ok" => some .Ok
  | .str "InvalidArgument" => some .InvalidArgument
  | .str "NotFound" => some .NotFound
  | .str "Unsupported" => some .Unsupported
  | .str "PermissionDenied" => some .PermissionDenied
  | .str "SystemError" => some .SystemError
  | .str "Unknown" => some .Unknown
  | _ => none

def encodeForgeFfiError (e : ForgeFfiError) : Json :=
  .obj [("code", encodeErrorCode e.code), ("message", .str e.message)]

def decodeForgeFfiError (j : Json) : Option ForgeFfiError := do
  let code ← decodeReqField j "code" decodeErrorCode
  let message ← decodeReqField j "message" Json.asStr
  pure ⟨code, message⟩

def encodeIfaceKind : IfaceKind → Json
  | .Unknown => .str "unknown"
  | .Physical => .str "physical"
  | .Virtual => .str "virtual"
  | .Loopback => .str "loopback"
  | .Tunnel => .str "tunnel"

def decodeIfaceKind (j : Json) : Option IfaceKind :=
  match j with
  | .str "unknown" => some .Unknown
  | .str "physical" => some .Physical
  | .str "virtual" => some .Virtual
  | .str "loopback" => some .Loopback
  | .str "tunnel" => some .Tunnel
  | _ => none

def encodeAdminState : AdminState → Json
  | .Unknown => .str "unknown"
  | .Up => .str "up"
  | .Down => .str "down"

def decodeAdminState (j : Json) : Option AdminState :=
  match j with
  | .str "unknown" => some .Unknown
  | .str "up" => some .Up
  | .str "down" => some .Down
  | _ => none

def encodeOperState : OperState → Json
  | .Unknown => .str "unknown"
  | .Up => .str "up"
  | .Down => .str "down"
  | .Dormant => .str "dormant"
  | .LowerLayerDown => .str "lower_layer_down"

def decodeOperState (j : Json) : Option OperState :=
  match j with
  | .str "unknown" => some .Unknown
  | .str "up" => some .Up
  | .str "down" => some .Down
  | .str "dormant" => some .Dormant
  | .str "lower_layer_down" => some .LowerLayerDown
  | _ => none

def encodeIpScope : IpScope → Json
  | .Unknown => .str "unknown"
  | .Host => .str "host"
  | .Link => .str "link"
  | .Site => .str "site"
  | .Global => .str "global"

def decodeIpScope (j : Json) : Option IpScope :=
  match j with
  | .str "unknown" => some .Unknown
  | .str "host" => some .Host
  | .str "link" => some .Link
  | .str "site" => some .Site
  | .str "global" => some .Global
  | _ => none

def encodeIpOrigin : IpOrigin → Json
  | .Unknown => .str "unknown"
  | .Static => .str "static"
  | .Dhcp => .str "dhcp"

def decodeIpOrigin (j : Json) : Option IpOrigin :=
  match j with
  | .str "unknown" => some .Unknown
  | .str "static" => some .Static
  | .str "dhcp" => some .Dhcp
  | _ => none

def encodeIpAddrEntry (e : IpAddrEntry) : Json :=
  .obj ([("ip", .str e.ip), ("prefix_len", .num e.prefix_len)]
    ++ optField "scope" encodeIpScope e.scope
    ++ optField "origin" encodeIpOrigin e.origin
    ++ optField "flags" Json.num e.flags)

def decodeIpAddrEntry (j : Json) : Option IpAddrEntry := do
  let ip ← decodeReqField j "ip" Json.asStr
  let pl ← decodeReqField j "prefix_len" Json.asNat
  let scope ← decodeOptField j "scope" decodeIpScope
  let origin ← decodeOptField j "origin" decodeIpOrigin
  let flags ← decodeOptField j "flags" Json.asNat
  pure ⟨ip, pl, scope, origin, flags⟩

def encodeNetIfCapabilities (c : NetIfCapabilities) : Json :=
  .obj ([("can_set_admin_state", .bool c.can_set_admin_state),
    ("can_set_mtu", .bool c.can_set_mtu),
    ("can_add_del_ip", .bool c.can_add_del_ip),
    ("can_set_dhcp", .bool c.can_set_dhcp),
    ("can_set_dns", .bool c.can_set_dns)]
    ++ optField "notes" Json.str c.notes)

def decodeNetIfCapabilities (j : Json) : Option NetIfCapabilities := do
  let a ← decodeReqField j "can_set_admin_state" Json.asBool
  let b ← decodeReqField j "can_set_mtu" Json.asBool
  let c ← decodeReqField j "can_add_del_ip" Json.asBool
  let d ← decodeReqField j "can_set_dhcp" Json.asBool
  let e ← decodeReqField j "can_set_dns" Json.asBool
  let notes ← decodeOptField j "notes" Json.asStr
  pure ⟨a, b, c, d, e, notes⟩

def encodeNetInterface (n : NetInterface) : Json :=
  .obj ([("if_index", .num n.if_index), ("name", .str n.name)]
    ++ optField "display_name" Json.str n.display_name
    ++ [("kind", encodeIfaceKind n.kind)]
    ++ optField "is_physical" Json.bool n.is_physical
    ++ [("admin_state", encodeAdminState n.admin_state)]
    ++ optField "oper_state" encodeOperState n.oper_state
    ++ [("flags", .num n.flags)]
    ++ optField "mac" Json.str n.mac
    ++ optField "mtu" Json.num n.mtu
    ++ optField "speed_bps" Json.num n.speed_bps
    ++ [("ipv4", .arr (n.ipv4.map encodeIpAddrEntry)),
      ("ipv6", .arr (n.ipv6.map encodeIpAddrEntry)),
      ("capabilities", encodeNetIfCapabilities n.capabilities)])

def decodeNetInterface (j : Json) : Option NetInterface := do
  let if_index ← decodeReqField j "if_index" Json.asNat
  let name ← decodeReqField j "name" Json.asStr
  let display_name ← decodeOptField j "display_name" Json.asStr
  let kind ← decodeReqField j "kind" decodeIfaceKind
  let is_physical ← decodeOptField j "is_physical" Json.asBool
  let admin_state ← decodeReqField j "admin_state" decodeAdminState
  let oper_state ← decodeOptField j "oper_state" decodeOperState
  let flags ← decodeReqField j "flags" Json.asNat
  let mac ← decodeOptField j "mac" Json.asStr
  let mtu ← decodeOptField j "mtu" Json.asNat
  let speed_bps ← decodeOptField j "speed_bps" Json.asNat
  let ipv4 ← decodeVecField j "ipv4" decodeIpAddrEntry
  let ipv6 ← decodeVecField j "ipv6" decodeIpAddrEntry
  let capabilities ← decodeReqField j "capabilities" decodeNetIfCapabilities
  pure ⟨if_index, name, display_name, kind, is_physical, admin_state, oper_state, flags,
    mac, mtu, speed_bps, ipv4, ipv6, capabilities⟩

def encodeIfaceSelector (s : IfaceSelector) : Json :=
  .obj (optField "if_index" Json.num s.if_index ++ optField "name" Json.str s.name)

def decodeIfaceSelector (j : Json) : Option IfaceSelector := do
  let if_index ← decodeOptField j "if_index" Json.asNat
  let name ← decodeOptField j "name" Json.asStr
  pure ⟨if_index, name⟩

def encodeNetIfOp : NetIfOp → Json
  | .SetAdminState up => .obj [("op", .str "set_admin_state"), ("up", .bool up)]
  | .SetMtu mtu => .obj [("op", .str "set_mtu"), ("mtu", .num mtu)]
  | .AddIp ip prefix_len =>
    .obj [("op", .str "add_ip"), ("ip", .str ip), ("prefix_len", .num prefix_len)]
  | .DelIp ip prefix_len =>
    .obj [("op", .str "del_ip"), ("ip", .str ip), ("prefix_len", .num prefix_len)]
  | .SetIpv4Dhcp enable => .obj [("op", .str "set_ipv4_dhcp"), ("enable", .bool enable)]
  | .SetIpv4Static ip prefix_len gateway =>
    .obj ([("op", .str "set_ipv4_static"), ("ip", .str ip), ("prefix_len", .num prefix_len)]
      ++ optField "gateway" Json.str gateway)

def decodeNetIfOp (j : Json) : Option NetIfOp := do
  let tag ← decodeReqField j "op" Json.asStr
  match tag with
  | "set_admin_state" => do
    let up ← decodeReqField j "up" Json.asBool
    pure (.SetAdminState up)
  | "set_mtu" => do
    let mtu ← decodeReqField j "mtu" Json.asNat
    pure (.SetMtu mtu)
  | "add_ip" => do
    let ip ← decodeReqField j "ip" Json.asStr
    let pl ← decodeReqField j "prefix_len" Json.asNat
    pure (.AddIp ip pl)
  | "del_ip" => do
    let ip ← decodeReqField j "ip" Json.asStr
    let pl ← decodeReqField j "prefix_len" Json.asNat
    pure (.DelIp ip pl)
  | "set_ipv4_dhcp" => do
    let enable ← decodeReqField j "enable" Json.asBool
    pure (.SetIpv4Dhcp enable)
  | "set_ipv4_static" => do
    let ip ← decodeReqField j "ip" Json.asStr
    let pl ← decodeReqField j "prefix_len" Json.asNat
    let gw ← decodeOptField j "gateway" Json.asStr
    pure (.SetIpv4Static ip pl gw)
  | _ => none

def encodeNetIfOpResult (r : NetIfOpResult) : Json :=
  .obj ([("i", .num r.i), ("ok", .bool r.ok)]
    ++ optField "error" encodeForgeFfiError r.error)

def decodeNetIfOpResult (j : Json) : Option NetIfOpResult := do
  let i ← decodeReqField j "i" Json.asNat
  let ok ← decodeReqField j "ok" Json.asBool
  let e ← decodeOptField j "error" decodeForgeFfiError
  pure ⟨i, ok, e⟩

def encodeNetIfListResponse (r : NetIfListResponse) : Json :=
  .obj [("abi", .num r.abi), ("items", .arr (r.items.map encodeNetInterface))]

def decodeNetIfListResponse (j : Json) : Option NetIfListResponse := do
  let abi ← decodeReqField j "abi" Json.asNat
  let items ← decodeReqField j "items" (fun v =>
    match v with
    | .arr xs => mapMOpt decodeNetInterface xs
    | _ => none)
  pure ⟨abi, items⟩

def encodeNetIfApplyRequest (r : NetIfApplyRequest) : Json :=
  .obj [("abi", .num r.abi), ("target", encodeIfaceSelector r.target),
    ("ops", .arr (r.ops.map encodeNetIfOp))]

def decodeNetIfApplyRequest (j : Json) : Option NetIfApplyRequest := do
  let abi ← decodeReqField j "abi" Json.asNat
  let target ← decodeReqField j "target" decodeIfaceSelector
  let ops ← decodeReqField j "ops" (fun v =>
    match v with
    | .arr xs => mapMOpt decodeNetIfOp xs
    | _ => none)
  pure ⟨abi, target, ops⟩

def encodeNetIfApplyResponse (r : NetIfApplyResponse) : Json :=
  .obj [("abi", .num r.abi), ("ok", .bool r.ok),
    ("results", .arr (r.results.map encodeNetIfOpResult))]

def decodeNetIfApplyResponse (j : Json) : Option NetIfApplyResponse := do
  let abi ← decodeReqField j "abi" Json.asNat
  let ok ← decodeReqField j "ok" Json.asBool
  let results ← decodeReqField j "results" (fun v =>
    match v with
    | .arr xs => mapMOpt decodeNetIfOpResult xs
    | _ => none)
  pure ⟨abi, ok, results⟩

/-! ## C-ABI boundary (`forgeffi-net-ffi/src/mem.rs`, `exports.rs`)

The boundary marshals the JSON payloads shown above.  Byte-buffer handling
(`write_out`, raw-pointer ownership) is modelled for `tool_free` by an
explicit allocation list; request/response payloads are modelled at the
`Json` level (UTF-8 byte rendering of a `Json` tree is injective, so value
equality at the tree level models byte equality on the wire). -/

/-- `write_error_out` of `forgeffi-net-ffi/src/mem.rs`: the fallback envelope
written for any whole-call failure — `json!({ "abi": ABI_VERSION, "ok": false,
"error": e })`.  `serde_json`'s object is a `BTreeMap`, so keys appear in
sorted order `abi`, `error`, `ok` on the wire. -/
def errorEnvelope (e : ForgeFfiError) : Json :=
  .obj [("abi", .num ABI_VERSION), ("error", encodeForgeFfiError e), ("ok", .bool false)]

/-- `apply_json_bytes` of `forgeffi-sys/src/netif/mod.rs` (the response
serialization step never fails for these values, so the `system_error`
arm of `serde_json::to_vec` is not reachable in the model). -/
def apply_json_bytes (P : Platform) (reqJson : Json) : Except ForgeFfiError Json :=
  match decodeNetIfApplyRequest reqJson with
  | none => .error (.invalid_argument "解析请求 JSON 失败")
  | some req =>
    match apply_request P req with
    | .error e => .error e
    | .ok resp => .ok (encodeNetIfApplyResponse resp)

/-- `tool_netif_apply_json` of `forgeffi-net-ffi/src/exports.rs`, after the
null-pointer / UTF-8 pre-checks: the returned status code and the output
buffer (success payload, or the `write_error_out` envelope). -/
def tool_netif_apply_json (P : Platform) (reqJson : Json) : Nat × Json :=
  match apply_json_bytes P reqJson with
  | .ok buf => (0, buf)
  | .error e => (e.code.as_i32, errorEnvelope e)

/-- `tool_free` of `forgeffi-net-ffi/src/exports.rs` over an explicit heap of
live allocations `(ptr, len)`; pointer value `0` models `ptr.is_null()`.  The
returned flag records whether a deallocation (`drop(Vec::from_raw_parts(..))`)
was performed. -/
def tool_free (heap : List (Nat × Nat)) (ptr len : Nat) : List (Nat × Nat) × Bool :=
  if ptr = 0 then (heap, false)
  else (heap.filter (fun a => ¬(a.1 = ptr ∧ a.2 = len)), true)

/-! ## Linux platform layer (`forgeffi-sys/src/netif/platform_linux.rs`)

External-process invocation and the filesystem are oracles in a `LinuxWorld`;
each embedded function returns its Rust result together with the ordered
trace of external effects it performed.  `nmcli_available` is the
process-lifetime memoized `OnceLock` check and is modelled as the memoized
boolean itself (its one-off `nmcli -v` probe is not traced). -/

/-- Outcome of `Command::new(..).output()`: the spawn failed, or the process
exited with a success flag, stdout and stderr (text form; the code only reads
them through `String::from_utf8_lossy`). -/
inductive CmdOutcome where
  | spawnFail (errMsg : String)
  | exited (success : Bool) (stdout stderr : String)
deriving DecidableEq, Repr

/-- Outcome of a filesystem call (`fs::write` / `fs::rename`):
success, or an `io::Error` whose kind is or is not `PermissionDenied`. -/
inductive IoResult where
  | ok
  | err (permissionDenied : Bool) (msg : String)
deriving DecidableEq, Repr

/-- An observable external effect of the Linux dispatcher. -/
inductive Effect where
  | run (program : String) (args : List String)
  | dirCheck (path : String)
  | fsWrite (path content : String)
  | fsRename (src dst : String)
deriving DecidableEq, Repr

/-- The Linux environment oracle. -/
structure LinuxWorld where
  cmd : String → List String → CmdOutcome
  nmcliAvailable : Bool
  isDir : String → Bool
  writeRes : String → String → IoResult
  renameRes : String → String → IoResult
  pid : Nat

/-- `run_checked` of `platform_linux.rs`.  (The `{:?}` rendering of the
argument list inside error messages is approximated by `toString`.) -/
def run_checked (w : LinuxWorld) (program : String) (args : List String) :
    Except ForgeFfiError Unit × List Effect :=
  match w.cmd program args with
  | .spawnFail e =>
    (.error (.system_error ("执行命令失败: " ++ program ++ ": " ++ e)), [.run program args])
  | .exited true _ _ => (.ok (), [.run program args])
  | .exited false _ stderr =>
    (.error (.system_error ("命令失败: " ++ program ++ " " ++ toString args ++ ": " ++ stderr)),
      [.run program args])

/-- `nmcli_checked` of `platform_linux.rs`. -/
def nmcli_checked (w : LinuxWorld) (args : List String) :
    Except ForgeFfiError Unit × List Effect :=
  match w.cmd "nmcli" args with
  | .spawnFail e => (.error (.system_error ("执行 nmcli 失败: " ++ e)), [.run "nmcli" args])
  | .exited true _ _ => (.ok (), [.run "nmcli" args])
  | .exited false _ stderr =>
    (.error (.system_error
        ("nmcli 命令失败: nmcli " ++ toString args ++ ": " ++ stderr.trim)),
      [.run "nmcli" args])

/-- First line of a process stdout, as `text.lines().next().unwrap_or("")`. -/
def firstLine (s : String) : String :=
  match s.splitOn "\n" with
  | [] => ""
  | l :: _ => if l.endsWith "\r" then l.dropRight 1 else l

/-- `line.splitn(2, ':').nth(1).unwrap_or("")`. -/
def afterFirstColon (s : String) : String :=
  match s.splitOn ":" with
  | [] => ""
  | _ :: rest => if rest.isEmpty then "" else String.intercalate ":" rest

/-- `nmcli_connection_for_dev` of `platform_linux.rs`: `None` when `nmcli` is
absent or the device has no active connection profile. -/
def nmcli_connection_for_dev (w : LinuxWorld) (dev : String) :
    Except ForgeFfiError (Option String) × List Effect :=
  if w.nmcliAvailable = false then (.ok none, [])
  else
    let args := ["-t", "-f", "GENERAL.CONNECTION", "dev", "show", dev]
    match w.cmd "nmcli" args with
    | .spawnFail e => (.error (.system_error ("执行 nmcli 失败: " ++ e)), [.run "nmcli" args])
    | .exited false _ stderr =>
      (.error (.system_error ("nmcli 查询连接失败: " ++ stderr.trim)), [.run "nmcli" args])
    | .exited true stdout _ =>
      let line := (firstLine stdout).trim
      let v := (afterFirstColon line).trim
      if v = "" ∨ v = "--" then (.ok none, [.run "nmcli" args])
      else (.ok (some v), [.run "nmcli" args])

/-- `apply_runtime_static_ipv4` of `platform_linux.rs`: flush global-scope
addresses, add the new one, and (when a nonempty gateway was supplied)
replace the default route. -/
def apply_runtime_static_ipv4 (w : LinuxWorld) (dev cidr : String) (gateway : Option String) :
    Except ForgeFfiError Unit × List Effect :=
  let r1 := run_checked w "ip" ["addr", "flush", "dev", dev, "scope", "global"]
  match r1.1 with
  | .error e => (.error e, r1.2)
  | .ok _ =>
    let r2 := run_checked w "ip" ["addr", "add", cidr, "dev", dev]
    match r2.1 with
    | .error e => (.error e, r1.2 ++ r2.2)
    | .ok _ =>
      match gateway with
      | some gw =>
        if gw ≠ "" then
          let r3 := run_checked w "ip" ["route", "replace", "default", "via", gw, "dev", dev]
          (r3.1, r1.2 ++ r2.2 ++ r3.2)
        else (.ok (), r1.2 ++ r2.2)
      | none => (.ok (), r1.2 ++ r2.2)

/-- `write_atomic` of `platform_linux.rs`.  The target path is always built as
`dir.join(file_name)` by its caller, so the model takes the directory and the
file name (whose `parent`/`file_name` decomposition is then exact): write to
`dir/.{file_name}.tmp.{pid}`, then rename onto `dir/file_name`. -/
def write_atomic (w : LinuxWorld) (dir fileName content : String) :
    IoResult × List Effect :=
  let tmp := dir ++ "/." ++ fileName ++ ".tmp." ++ toString w.pid
  let path := dir ++ "/" ++ fileName
  match w.writeRes tmp content with
  | .err p m => (.err p m, [.fsWrite tmp content])
  | .ok =>
    match w.renameRes tmp path with
    | .err p m => (.err p m, [.fsWrite tmp content, .fsRename tmp path])
    | .ok => (.ok, [.fsWrite tmp content, .fsRename tmp path])

/-- `map_io_error` of `platform_linux.rs`. -/
def map_io_error (p : Bool) (m : String) : ForgeFfiError :=
  if p then .permission_denied m else .system_error m

/-- The systemd-networkd configuration directory probed by the persistence
step. -/
def networkdDir : String := "/etc/systemd/network"

/-- `persist_systemd_networkd_static_ipv4` of `platform_linux.rs`: refuse with
`Unsupported` when `/etc/systemd/network` is not a directory, otherwise write
the declarative `.network` file atomically. -/
def persist_systemd_networkd_static_ipv4 (w : LinuxWorld) (dev cidr : String)
    (gateway : Option String) : Except ForgeFfiError Unit × List Effect :=
  if w.isDir networkdDir = false then
    (.error (.unsupported
        "未检测到 NetworkManager（nmcli）且系统未使用 systemd-networkd（缺少 /etc/systemd/network），无法持久化；已通过 ip 命令临时生效"),
      [.dirCheck networkdDir])
  else
    let file_name := "99-forgeffi-" ++ dev ++ ".network"
    let gw_line := match gateway with
      | some s => if s ≠ "" then "Gateway=" ++ s ++ "\n" else ""
      | none => ""
    let content := "[Match]\nName=" ++ dev ++ "\n\n[Network]\nDHCP=no\nAddress=" ++ cidr
      ++ "\n" ++ gw_line
    let r := write_atomic w networkdDir file_name content
    match r.1 with
    | .ok => (.ok (), .dirCheck networkdDir :: r.2)
    | .err p m => (.error (map_io_error p m), .dirCheck networkdDir :: r.2)

/-- The `NetIfOp::SetIpv4Static` arm of `apply_one` in `platform_linux.rs`
(the arm the persistence claim is about): on an NetworkManager-managed
interface edit the profile; otherwise apply at runtime via `ip`, then attempt
the systemd-networkd persistence. -/
def apply_one_set_ipv4_static (w : LinuxWorld) (target : ResolvedTarget)
    (ip : String) (prefix_len : Nat) (gateway : Option String) :
    Except ForgeFfiError Unit × List Effect :=
  let cidr := ip ++ "/" ++ toString prefix_len
  let det := nmcli_connection_for_dev w target.name
  match det.1 with
  | .error e => (.error e, det.2)
  | .ok (some conn) =>
    let a := nmcli_checked w ["con", "mod", "id", conn, "ipv4.method", "manual",
      "ipv4.addresses", cidr, "ipv4.gateway", (gateway.getD "")]
    match a.1 with
    | .error e => (.error e, det.2 ++ a.2)
    | .ok _ =>
      let b := nmcli_checked w ["con", "up", "id", conn]
      (b.1, det.2 ++ a.2 ++ b.2)
  | .ok none =>
    let ra := apply_runtime_static_ipv4 w target.name cidr gateway
    match ra.1 with
    | .error e => (.error e, det.2 ++ ra.2)
    | .ok _ =>
      let pe := persist_systemd_networkd_static_ipv4 w target.name cidr gateway
      (pe.1, det.2 ++ ra.2 ++ pe.2)

/-! ### Linux enumeration (`list_interfaces`, `map_iface`) -/

/-- Bit names of the `IfaceFlags` newtype (`forgeffi-base/src/netif.rs`). -/
def flagUP : Nat := 1

def flagRUNNING : Nat := 2

def flagLOOPBACK : Nat := 4

def flagBROADCAST : Nat := 8

def flagMULTICAST : Nat := 16

def flagPOINT_TO_POINT : Nat := 32

/-- Bit names of the `IpAddrFlags` newtype. -/
def ipFlagTEMPORARY : Nat := 1

def ipFlagDEPRECATED : Nat := 2

def ipFlagTENTATIVE : Nat := 4

/-- One `addr_info` record of `ip -j address` (serde row `IpAddrInfo` of
`platform_linux.rs`; the Rust field `local` is `localIp` here — `local` is a
Lean keyword). -/
structure IpAddrInfo where
  family : String
  localIp : String
  prefixlen : Nat
  scope : Option String
  deprecated : Bool
  tentative : Bool
  temporary : Bool
  dynamic : Bool
deriving DecidableEq, Repr

/-- One interface record of `ip -j address` (serde row `IpIface`). -/
structure IpIface where
  ifindex : Nat
  ifname : String
  flags : List String
  mtu : Option Nat
  operstate : Option String
  address : Option String
  addr_info : List IpAddrInfo
deriving DecidableEq, Repr

/-- `map_oper_state` of `platform_linux.rs`. -/
def map_oper_state (s : String) : OperState :=
  match s with
  | "UP" => .Up
  | "DOWN" => .Down
  | "DORMANT" => .Dormant
  | "LOWERLAYERDOWN" => .LowerLayerDown
  | _ => .Unknown

/-- `map_scope` of `platform_linux.rs`. -/
def map_scope (s : String) : IpScope :=
  match s with
  | "host" => .Host
  | "link" => .Link
  | "global" => .Global
  | "site" => .Site
  | _ => .Unknown

/-- The per-address entry built inside `map_iface`. -/
def mkAddrEntry (a : IpAddrInfo) : IpAddrEntry :=
  let addrFlags := (if a.temporary then ipFlagTEMPORARY else 0)
    ||| (if a.deprecated then ipFlagDEPRECATED else 0)
    ||| (if a.tentative then ipFlagTENTATIVE else 0)
  { ip := a.localIp
    prefix_len := a.prefixlen
    scope := a.scope.map map_scope
    origin := if a.dynamic then some .Dhcp else none
    flags := if addrFlags = 0 then none else some addrFlags }

/-- `map_iface` of `platform_linux.rs`. -/
def map_iface (nmcliAvail : Bool) (i : IpIface) : NetInterface :=
  let flags := i.flags.foldl (fun acc f =>
    match f with
    | "UP" => acc ||| flagUP
    | "LOWER_UP" => acc ||| flagRUNNING
    | "RUNNING" => acc ||| flagRUNNING
    | "LOOPBACK" => acc ||| flagLOOPBACK
    | "BROADCAST" => acc ||| flagBROADCAST
    | "MULTICAST" => acc ||| flagMULTICAST
    | "POINTOPOINT" => acc ||| flagPOINT_TO_POINT
    | _ => acc) 0
  let admin_state := if flags &&& flagUP ≠ 0 then AdminState.Up else AdminState.Down
  let kind :=
    if i.ifname = "lo" ∨ i.ifname.startsWith "lo" then IfaceKind.Loopback
    else if i.ifname.startsWith "tun" then IfaceKind.Tunnel
    else if i.ifname.startsWith "tap" then IfaceKind.Virtual
    else IfaceKind.Unknown
  { if_index := i.ifindex
    name := i.ifname
    display_name := none
    kind := kind
    is_physical := none
    admin_state := admin_state
    oper_state := i.operstate.map map_oper_state
    flags := flags
    mac := i.address
    mtu := i.mtu
    speed_bps := none
    ipv4 := (i.addr_info.filter (fun a => a.family = "inet")).map mkAddrEntry
    ipv6 := (i.addr_info.filter (fun a => a.family = "inet6")).map mkAddrEntry
    capabilities :=
      { can_set_admin_state := true
        can_set_mtu := true
        can_add_del_ip := true
        can_set_dhcp := nmcliAvail
        can_set_dns := false
        notes := none } }

/-- `list_interfaces` of `platform_linux.rs`.  The JSON deserialization of the
`ip -j address` output (`serde_json::from_slice`) is an external library call
and is passed in as the partial function `parseIpJson` (`.error` carries the
serde error message). -/
def list_interfaces_linux (w : LinuxWorld)
    (parseIpJson : String → Except String (List IpIface)) :
    Except ForgeFfiError (List NetInterface) × List Effect :=
  let args := ["-j", "address"]
  match w.cmd "ip" args with
  | .spawnFail e =>
    (.error (.unsupported ("无法执行 ip 命令（需要 iproute2）: " ++ e)), [.run "ip" args])
  | .exited false _ stderr =>
    (.error (.system_error ("ip -j address 失败: " ++ stderr)), [.run "ip" args])
  | .exited true stdout _ =>
    match parseIpJson stdout with
    | .error e => (.error (.system_error ("解析 ip JSON 失败: " ++ e)), [.run "ip" args])
    | .ok ifaces => (.ok (ifaces.map (map_iface w.nmcliAvailable)), [.run "ip" args])

/-! ## macOS platform layer (`forgeffi-sys/src/netif/platform_macos.rs`) -/

/-- `list_interfaces` of `platform_macos.rs`.  `parse_ifconfig` is total in
the source (unrecognized blocks are skipped, never an error), so it is passed
in as a total function. -/
def list_interfaces_macos (o : CmdOutcome) (parse_ifconfig : String → List NetInterface) :
    Except ForgeFfiError (List NetInterface) :=
  match o with
  | .spawnFail e => .error (.unsupported ("无法执行 ifconfig: " ++ e))
  | .exited false _ stderr => .error (.system_error ("ifconfig -a 失败: " ++ stderr))
  | .exited true stdout _ => .ok (parse_ifconfig stdout)

/-- `u8::from_str` / `u32::from_str_radix` digit loop of the Rust standard
library: every character must be a digit of the radix and the checked
arithmetic must stay within `bound`. -/
def parseUIntDigits (radix bound : Nat) : List Char → Nat → Option Nat
  | [], acc => some acc
  | c :: rest, acc =>
    match digitVal radix c with
    | none => none
    | some d =>
      if acc * radix + d > bound then none
      else parseUIntDigits radix bound rest (acc * radix + d)

/-- Rust `from_str_radix` for an unsigned type with maximum `bound`: an
optional leading `+` (a bare sign or an empty string is an error), then at
least one digit.  (A leading `-` on an unsigned type falls through to the
digit loop and fails there, as in Rust.) -/
def parseUInt (radix bound : Nat) (s : List Char) : Option Nat :=
  match s with
  | [] => none
  | c :: rest =>
    if c = '+' then
      if rest.isEmpty then none else parseUIntDigits radix bound rest 0
    else parseUIntDigits radix bound (c :: rest) 0

/-- `str::split(sep)` of Rust over characters: `n` separators yield `n + 1`
pieces, empty pieces included. -/
def splitChar (sep : Char) : List Char → List (List Char)
  | [] => [[]]
  | c :: rest =>
    if c = sep then [] :: splitChar sep rest
    else
      match splitChar sep rest with
      | [] => [[c]]
      | g :: gs => (c :: g) :: gs

/-- `u32::count_ones`. -/
def popCount : Nat → Nat
  | 0 => 0
  | n + 1 => (n + 1) % 2 + popCount ((n + 1) / 2)
decreasing_by exact Nat.div_lt_self (Nat.succ_pos n) (by omega)

/-- `u32::from_be_bytes([a, b, c, d])`. -/
def beBytes (a b c d : Nat) : Nat := ((a * 256 + b) * 256 + c) * 256 + d

/-- `mask.strip_prefix("0x")`. -/
def strip0x (s : List Char) : Option (List Char) :=
  match s with
  | c1 :: c2 :: rest => if c1 = '0' ∧ c2 = 'x' then some rest else none
  | _ => none

/-- `parse_netmask_to_prefix` of `platform_macos.rs` (named with the `_len`
suffix here): a `0x`-prefixed mask goes through `u32::from_str_radix(_, 16)`,
anything else through a dotted-quad split whose four components must each
parse as `u8`; the result is the set-bit count of the 32-bit mask value. -/
def parse_netmask_to_prefix_len (mask : List Char) : Option Nat :=
  match strip0x mask with
  | some hex => (parseUInt 16 4294967295 hex).map popCount
  | none =>
    match mapMOpt (parseUInt 10 255) (splitChar '.' mask) with
    | none => none
    | some [a, b, c, d] => some (popCount (beBytes a b c d))
    | some _ => none

/-! ## Windows platform layer (`forgeffi-sys/src/netif/platform_windows.rs`) -/

/-- `run_powershell_capture` of `platform_windows.rs`. -/
def run_powershell_capture (o : CmdOutcome) : Except ForgeFfiError String :=
  match o with
  | .spawnFail e => .error (.unsupported ("无法执行 PowerShell: " ++ e))
  | .exited true stdout _ => .ok stdout
  | .exited false _ stderr => .error (.system_error ("PowerShell 失败: " ++ stderr))

/-- `list_interfaces` of `platform_windows.rs`.  `serde_json::from_str` to a
`Value` is the external library call `parseJson`; the subsequent pure
construction of the interface list from the parsed `Value` (the three-way
join on `ifIndex`) is total in the source and is passed in as `build`. -/
def list_interfaces_windows {J : Type} (o : CmdOutcome)
    (parseJson : String → Except String J) (build : J → List NetInterface) :
    Except ForgeFfiError (List NetInterface) :=
  match run_powershell_capture o with
  | .error e => .error e
  | .ok text =>
    match parseJson text with
    | .error e => .error (.system_error ("解析 PowerShell JSON 失败: " ++ e))
    | .ok v => .ok (build v)

/-! ## Theorems -/

/-- C10: for every length value, calling the boundary release function
`tool_free` with a null pointer returns immediately: the heap of live
allocations is unchanged and no deallocation is performed. -/
theorem C10_tool_free_null_is_noop (heap : List (Nat × Nat)) (len : Nat) :
    tool_free heap 0 len = (heap, false) := rfl

/-- C4: target resolution matches by `if_index` whenever it is present and
nonzero (name is ignored then), otherwise matches by exact name equality when
a name is present, fails `InvalidArgument` when neither applies, and fails
`NotFound` when the chosen path matches no interface. -/
theorem C4_resolve_target_selection (sel : IfaceSelector) (ifaces : List NetInterface) :
    (∀ idx, sel.if_index = some idx → idx ≠ 0 →
      ((∃ i ∈ ifaces, i.if_index = idx) →
        ∃ t i, resolve_target sel ifaces = .ok t ∧ i ∈ ifaces ∧ i.if_index = idx ∧
          t.if_index = i.if_index ∧ t.name = i.name) ∧
      ((∀ i ∈ ifaces, i.if_index ≠ idx) →
        ∃ e, resolve_target sel ifaces = .error e ∧ e.code = ErrorCode.NotFound)) ∧
    ((sel.if_index = none ∨ sel.if_index = some 0) →
      (∀ n, sel.name = some n →
        ((∃ i ∈ ifaces, i.name = n) →
          ∃ t, resolve_target sel ifaces = .ok t ∧ t.name = n) ∧
        ((∀ i ∈ ifaces, i.name ≠ n) →
          ∃ e, resolve_target sel ifaces = .error e ∧ e.code = ErrorCode.NotFound)) ∧
      (sel.name = none →
        ∃ e, resolve_target sel ifaces = .error e ∧ e.code = ErrorCode.InvalidArgument)) := by
  constructor
  · intro idx hidx hnz
    constructor
    · rintro ⟨i, hmem, hi⟩
      rcases hfind : ifaces.find? (fun it => it.if_index = idx) with _ | j
      · rw [List.find?_eq_none] at hfind
        exact absurd (by simpa using hi) (by simpa using hfind i hmem)
      · refine ⟨⟨j.if_index, j.name⟩, j, ?_, List.mem_of_find?_eq_some hfind, ?_, rfl, rfl⟩
        · simp [resolve_target, hidx, hnz, hfind]
        · simpa using List.find?_some hfind
    · intro hnone
      have hfind : ifaces.find? (fun it => it.if_index = idx) = none := by
        rw [List.find?_eq_none]
        intro i hmem
        simpa using hnone i hmem
      exact ⟨.not_found ("未找到网卡 if_index=" ++ toString idx),
        by simp [resolve_target, hidx, hnz, hfind], rfl⟩
  · intro hzidx
    have hbranch : resolve_target sel ifaces = resolve_target.resolveByName sel ifaces := by
      rcases hzidx with h | h <;> simp [resolve_target, h]
    constructor
    · intro n hn
      constructor
      · rintro ⟨i, hmem, hi⟩
        rcases hfind : ifaces.find? (fun it => it.name = n) with _ | j
        · rw [List.find?_eq_none] at hfind
          exact absurd (by simpa using hi) (by simpa using hfind i hmem)
        · refine ⟨⟨j.if_index, j.name⟩, ?_, ?_⟩
          · rw [hbranch]; simp [resolve_target.resolveByName, hn, hfind]
          · simpa using List.find?_some hfind
      · intro hnone
        have hfind : ifaces.find? (fun it => it.name = n) = none := by
          rw [List.find?_eq_none]
          intro i hmem
          simpa using hnone i hmem
        refine ⟨.not_found ("未找到网卡 name=" ++ n), ?_, rfl⟩
        rw [hbranch]; simp [resolve_target.resolveByName, hn, hfind]
    · intro hn
      refine ⟨.invalid_argument "target 必须至少包含 if_index 或 name", ?_, rfl⟩
      rw [hbranch]; simp [resolve_target.resolveByName, hn]

/-- Witness for C4 at concrete inputs: the empty selector fails
`InvalidArgument` on an empty interface list. -/
theorem C4_resolve_target_selection_witness :
    ∃ e, resolve_target ⟨none, none⟩ [] = .error e ∧ e.code = ErrorCode.InvalidArgument :=
  ((C4_resolve_target_selection ⟨none, none⟩ []).2 (Or.inl rfl)).2 rfl

/-- C7: on every platform, enumeration fails `Unsupported` when the OS
utility cannot be spawned at all, and fails `SystemError` when the utility
exits with nonzero status or (on the platforms whose parser can fail: Linux
JSON, Windows JSON — the macOS `ifconfig` parser is total) when its output
cannot be parsed. -/
theorem C7_enumeration_failure_taxonomy :
    (∀ (w : LinuxWorld) parse e, w.cmd "ip" ["-j", "address"] = .spawnFail e →
      ∃ err, (list_interfaces_linux w parse).1 = .error err ∧ err.code = ErrorCode.Unsupported) ∧
    (∀ (w : LinuxWorld) parse out stderr, w.cmd "ip" ["-j", "address"] = .exited false out stderr →
      ∃ err, (list_interfaces_linux w parse).1 = .error err ∧ err.code = ErrorCode.SystemError) ∧
    (∀ (w : LinuxWorld) parse out stderr msg, w.cmd "ip" ["-j", "address"] = .exited true out stderr →
      parse out = .error msg →
      ∃ err, (list_interfaces_linux w parse).1 = .error err ∧ err.code = ErrorCode.SystemError) ∧
    (∀ (parse : String → List NetInterface) (e : String),
      ∃ err, list_interfaces_macos (.spawnFail e) parse = .error err ∧
        err.code = ErrorCode.Unsupported) ∧
    (∀ (parse : String → List NetInterface) (out stderr : String),
      ∃ err, list_interfaces_macos (.exited false out stderr) parse = .error err ∧
        err.code = ErrorCode.SystemError) ∧
    (∀ (J : Type) (parse : String → Except String J) (build : J → List NetInterface) (e : String),
      ∃ err, list_interfaces_windows (.spawnFail e) parse build = .error err ∧
        err.code = ErrorCode.Unsupported) ∧
    (∀ (J : Type) (parse : String → Except String J) (build : J → List NetInterface)
      (out stderr : String),
      ∃ err, list_interfaces_windows (.exited false out stderr) parse build = .error err ∧
        err.code = ErrorCode.SystemError) ∧
    (∀ (J : Type) (parse : String → Except String J) (build : J → List NetInterface)
      (out stderr msg : String), parse out = .error msg →
      ∃ err, list_interfaces_windows (.exited true out stderr) parse build = .error err ∧
        err.code = ErrorCode.SystemError) := by
  refine ⟨?_, ?_, ?_, ?_, ?_, ?_, ?_, ?_⟩
  · intro w parse e h
    exact ⟨.unsupported ("无法执行 ip 命令（需要 iproute2）: " ++ e),
      by simp [list_interfaces_linux, h], rfl⟩
  · intro w parse out stderr h
    exact ⟨.system_error ("ip -j address 失败: " ++ stderr),
      by simp [list_interfaces_linux, h], rfl⟩
  · intro w parse out stderr msg h hp
    exact ⟨.system_error ("解析 ip JSON 失败: " ++ msg),
      by simp [list_interfaces_linux, h, hp], rfl⟩
  · intro parse e
    exact ⟨.unsupported ("无法执行 ifconfig: " ++ e), rfl, rfl⟩
  · intro parse out stderr
    exact ⟨.system_error ("ifconfig -a 失败: " ++ stderr), rfl, rfl⟩
  · intro J parse build e
    exact ⟨.unsupported ("无法执行 PowerShell: " ++ e), rfl, rfl⟩
  · intro J parse build out stderr
    exact ⟨.system_error ("PowerShell 失败: " ++ stderr), rfl, rfl⟩
  · intro J parse build out stderr msg hp
    exact ⟨.system_error ("解析 PowerShell JSON 失败: " ++ msg),
      by simp [list_interfaces_windows, run_powershell_capture, hp], rfl⟩

/-- A concrete Linux world whose `ip` command cannot be spawned. -/
def worldNoIp : LinuxWorld :=
  { cmd := fun _ _ => .spawnFail "No such file or directory"
    nmcliAvailable := false
    isDir := fun _ => false
    writeRes := fun _ _ => .ok
    renameRes := fun _ _ => .ok
    pid := 1 }

/-- Witness for C7 at a concrete input: a Linux world without the `ip`
binary enumerates as `Unsupported`. -/
theorem C7_enumeration_failure_taxonomy_witness :
    ∃ err, (list_interfaces_linux worldNoIp (fun _ => .error "x")).1 = .error err ∧
      err.code = ErrorCode.Unsupported :=
  C7_enumeration_failure_taxonomy.1 worldNoIp (fun _ => .error "x")
    "No such file or directory" rfl

/-- The validation rule of spec §4.2, stated from the spec's words: MTU
nonzero; for AddIp/DelIp the address parses as an IP literal and the prefix
length is at most 32 (IPv4) / 128 (IPv6), AddIp additionally forbidding 0;
SetIpv4Static needs prefix length 1–32, an IPv4 address and an IPv4 gateway
when one is given; SetAdminState and SetIpv4Dhcp always validate. -/
def opValidPerSpec : NetIfOp → Prop
  | .SetAdminState _ => True
  | .SetMtu mtu => mtu ≠ 0
  | .AddIp ip prefix_len =>
    prefix_len ≠ 0 ∧ ∃ a, parseIpAddr ip = some a ∧
      (a.isV4 = true → prefix_len ≤ 32) ∧ (a.isV4 = false → prefix_len ≤ 128)
  | .DelIp ip prefix_len =>
    ∃ a, parseIpAddr ip = some a ∧
      (a.isV4 = true → prefix_len ≤ 32) ∧ (a.isV4 = false → prefix_len ≤ 128)
  | .SetIpv4Dhcp _ => True
  | .SetIpv4Static ip prefix_len gateway =>
    1 ≤ prefix_len ∧ prefix_len ≤ 32 ∧
    (∃ a, parseIpAddr ip = some a ∧ a.isV4 = true) ∧
    (∀ g, gateway = some g → ∃ b, parseIpAddr g = some b ∧ b.isV4 = true)

/-- Error equations between `Except.error` values determine the code. -/
theorem code_of_error_eq {X e : ForgeFfiError}
    (h : (Except.error X : Except ForgeFfiError Unit) = .error e) : e.code = X.code := by
  injection h with h
  rw [h]

/-- C3: the validator accepts exactly the operations allowed by the spec's
rules, and every rejection carries error code `InvalidArgument`. -/
theorem C3_validate_op_rules (op : NetIfOp) :
    (validate_op op = .ok () ↔ opValidPerSpec op) ∧
    (∀ e, validate_op op = .error e → e.code = ErrorCode.InvalidArgument) := by
  constructor
  · cases op with
    | SetAdminState up => simp [validate_op, opValidPerSpec]
    | SetIpv4Dhcp enable => simp [validate_op, opValidPerSpec]
    | SetMtu mtu => by_cases h : mtu = 0 <;> simp [validate_op, opValidPerSpec, h]
    | AddIp ip pl =>
      by_cases h0 : pl = 0
      · simp [validate_op, opValidPerSpec, h0]
      · rcases hp : parseIpAddr ip with _ | a
        · simp [validate_op, opValidPerSpec, h0, hp]
        · cases a with
          | v4 a b c d =>
            by_cases h32 : pl > 32 <;>
              simp [validate_op, opValidPerSpec, h0, hp, h32, IpParsed.isV4] <;> omega
          | v6 gs =>
            by_cases h128 : pl > 128 <;>
              simp [validate_op, opValidPerSpec, h0, hp, h128, IpParsed.isV4] <;> omega
    | DelIp ip pl =>
      rcases hp : parseIpAddr ip with _ | a
      · simp [validate_op, opValidPerSpec, hp]
      · cases a with
        | v4 a b c d =>
          by_cases h32 : pl > 32 <;>
            simp [validate_op, opValidPerSpec, hp, h32, IpParsed.isV4] <;> omega
        | v6 gs =>
          by_cases h128 : pl > 128 <;>
            simp [validate_op, opValidPerSpec, hp, h128, IpParsed.isV4] <;> omega
    | SetIpv4Static ip pl gateway =>
      by_cases h0 : pl = 0
      · simp [validate_op, opValidPerSpec, h0]
      · by_cases h32 : pl > 32
        · simp [validate_op, opValidPerSpec, h0, h32]
          try omega
        · rcases hp : parseIpAddr ip with _ | a
          · simp [validate_op, opValidPerSpec, h0, h32, hp]
          · cases a with
            | v6 gs =>
              simp [validate_op, opValidPerSpec, h0, h32, hp, IpParsed.isV4]
            | v4 a b c d =>
              cases gateway with
              | none =>
                simp [validate_op, opValidPerSpec, h0, h32, hp, IpParsed.isV4]
                omega
              | some gw =>
                rcases hg : parseIpAddr gw with _ | b
                · simp [validate_op, opValidPerSpec, h0, h32, hp, hg, IpParsed.isV4]
                · cases b with
                  | v6 gs =>
                    simp [validate_op, opValidPerSpec, h0, h32, hp, hg, IpParsed.isV4]
                  | v4 a' b' c' d' =>
                    simp [validate_op, opValidPerSpec, h0, h32, hp, hg, IpParsed.isV4]
                    omega
  · intro e he
    cases op with
    | SetAdminState up => simp [validate_op] at he
    | SetIpv4Dhcp enable => simp [validate_op] at he
    | SetMtu mtu =>
      simp only [validate_op] at he
      split at he
      · rw [code_of_error_eq he]; rfl
      · simp at he
    | AddIp ip pl =>
      simp only [validate_op] at he
      split at he
      · rw [code_of_error_eq he]; rfl
      · split at he
        · rw [code_of_error_eq he]; rfl
        · split at he
          · rw [code_of_error_eq he]; rfl
          · simp at he
        · split at he
          · rw [code_of_error_eq he]; rfl
          · simp at he
    | DelIp ip pl =>
      simp only [validate_op] at he
      split at he
      · rw [code_of_error_eq he]; rfl
      · split at he
        · rw [code_of_error_eq he]; rfl
        · simp at he
      · split at he
        · rw [code_of_error_eq he]; rfl
        · simp at he
    | SetIpv4Static ip pl gateway =>
      simp only [validate_op] at he
      split at he
      · rw [code_of_error_eq he]; rfl
      · split at he
        · rw [code_of_error_eq he]; rfl
        · split at he
          · rw [code_of_error_eq he]; rfl
          · split at he
            · rw [code_of_error_eq he]; rfl
            · split at he
              · simp at he
              · split at he
                · rw [code_of_error_eq he]; rfl
                · split at he
                  · rw [code_of_error_eq he]; rfl
                  · simp at he

/-- Witness for C3 at a concrete input: `SetMtu 0` is rejected and the
rejection's code is `InvalidArgument`. -/
theorem C3_validate_op_rules_witness :
    (ForgeFfiError.invalid_argument "mtu 不能为 0").code = ErrorCode.InvalidArgument :=
  (C3_validate_op_rules (.SetMtu 0)).2 (ForgeFfiError.invalid_argument "mtu 不能为 0") rfl

/-- The apply loop produces one result per submitted operation. -/
theorem applyOps_length (P : Platform) (t : ResolvedTarget) (n : Nat) (ops : List NetIfOp) :
    (applyOps P t n ops).1.length = ops.length := by
  induction ops generalizing n with
  | nil => rfl
  | cons op rest ih => simp [applyOps, ih]

/-- The result at position `i` of the apply loop depends only on the
operation at position `i` (and carries index `n + i`). -/
theorem applyOps_get? (P : Platform) (t : ResolvedTarget) (n : Nat) (ops : List NetIfOp) :
    ∀ i op, ops.get? i = some op →
      (applyOps P t n ops).1.get? i = some (mkOpResult (n + i) (dispatchOp P t op)) := by
  induction ops generalizing n with
  | nil => intro i op h; simp at h
  | cons op0 rest ih =>
    intro i op h
    cases i with
    | zero =>
      simp at h
      subst h
      simp [applyOps]
    | succ j =>
      simp only [List.get?_cons_succ] at h
      have := ih (n + 1) j op h
      simpa [applyOps, Nat.add_assoc, Nat.add_comm 1 j] using this

/-- The aggregate flag of the apply loop is true iff every produced result is
ok. -/
theorem applyOps_flag (P : Platform) (t : ResolvedTarget) (n : Nat) (ops : List NetIfOp) :
    (applyOps P t n ops).2 = true ↔ ∀ r ∈ (applyOps P t n ops).1, r.ok = true := by
  induction ops generalizing n with
  | nil => simp [applyOps]
  | cons op rest ih =>
    simp only [applyOps, Bool.and_eq_true, List.mem_cons]
    constructor
    · rintro ⟨h1, h2⟩ r (rfl | hr)
      · exact h1
      · exact (ih (n + 1)).1 h2 r hr
    · intro h
      exact ⟨h _ (Or.inl rfl), (ih (n + 1)).2 fun r hr => h r (Or.inr hr)⟩

/-- Every result produced by the apply loop is ok exactly when it carries no
error object. -/
theorem applyOps_ok_iff_error_none (P : Platform) (t : ResolvedTarget) (n : Nat)
    (ops : List NetIfOp) :
    ∀ r ∈ (applyOps P t n ops).1, (r.ok = true ↔ r.error = none) := by
  induction ops generalizing n with
  | nil => intro r hr; simp [applyOps] at hr
  | cons op rest ih =>
    intro r hr
    simp only [applyOps, List.mem_cons] at hr
    rcases hr with rfl | hr
    · cases h : dispatchOp P t op <;> simp [mkOpResult, h]
    · exact ih (n + 1) r hr

/-- Inversion of a successful `apply_request`: the response is built from the
apply loop over the resolved target. -/
theorem apply_request_ok_inv (P : Platform) (req : NetIfApplyRequest)
    (resp : NetIfApplyResponse) (h : apply_request P req = .ok resp) :
    ∃ t, resp = ⟨NETIF_ABI_VERSION, (applyOps P t 0 req.ops).2, (applyOps P t 0 req.ops).1⟩ := by
  rw [apply_request] at h
  split at h
  · simp at h
  · split at h
    · simp at h
    · split at h
      · simp at h
      · rename_i target _
        injection h with h
        exact ⟨target, h.symm⟩

/-- C2: once the ABI check passes and the target resolves, `apply_request`
answers with one result per submitted operation in submission order, each
result depending only on its own operation (so a failure never stops the
remaining operations), and the aggregate `ok` flag is true iff every
per-operation result is ok. -/
theorem C2_apply_batch_results (P : Platform) (req : NetIfApplyRequest)
    (ifaces : List NetInterface) (t : ResolvedTarget)
    (habi : req.abi = NETIF_ABI_VERSION) (hlist : P.listResult = .ok ifaces)
    (hres : resolve_target req.target ifaces = .ok t) :
    ∃ resp, apply_request P req = .ok resp ∧
      resp.results.length = req.ops.length ∧
      (∀ i op, req.ops.get? i = some op →
        resp.results.get? i = some (mkOpResult i (dispatchOp P t op))) ∧
      (resp.ok = true ↔ ∀ r ∈ resp.results, r.ok = true) := by
  refine ⟨⟨NETIF_ABI_VERSION, (applyOps P t 0 req.ops).2, (applyOps P t 0 req.ops).1⟩,
    ?_, ?_, ?_, ?_⟩
  · simp [apply_request, habi, hlist, hres]
  · exact applyOps_length P t 0 req.ops
  · intro i op h
    simpa using applyOps_get? P t 0 req.ops i op h
  · exact applyOps_flag P t 0 req.ops

/-- A concrete healthy interface used by the witnesses. -/
def iface0 : NetInterface :=
  { if_index := 1
    name := "eth0"
    display_name := none
    kind := .Unknown
    is_physical := none
    admin_state := .Up
    oper_state := none
    flags := 1
    mac := none
    mtu := some 1500
    speed_bps := none
    ipv4 := []
    ipv6 := []
    capabilities :=
      { can_set_admin_state := true
        can_set_mtu := true
        can_add_del_ip := true
        can_set_dhcp := false
        can_set_dns := false
        notes := none } }

/-- A concrete platform oracle: one interface, every dispatch succeeds. -/
def P0 : Platform := ⟨.ok [iface0], fun _ _ => .ok ()⟩

/-- A concrete well-formed apply request against `iface0`. -/
def req0 : NetIfApplyRequest := ⟨NETIF_ABI_VERSION, ⟨some 1, none⟩, [.SetMtu 1500]⟩

/-- Witness for C2 at concrete inputs. -/
theorem C2_apply_batch_results_witness :
    ∃ resp, apply_request P0 req0 = .ok resp ∧
      resp.results.length = req0.ops.length ∧
      (∀ i op, req0.ops.get? i = some op →
        resp.results.get? i = some (mkOpResult i (dispatchOp P0 ⟨1, "eth0"⟩ op))) ∧
      (resp.ok = true ↔ ∀ r ∈ resp.results, r.ok = true) :=
  C2_apply_batch_results P0 req0 [iface0] ⟨1, "eth0"⟩ rfl rfl rfl

/-- C9: in every response produced by `apply_request`, a per-operation result
is ok exactly when its error field is absent. -/
theorem C9_result_ok_iff_error_absent (P : Platform) (req : NetIfApplyRequest)
    (resp : NetIfApplyResponse) (h : apply_request P req = .ok resp) :
    ∀ r ∈ resp.results, (r.ok = true ↔ r.error = none) := by
  obtain ⟨t, rfl⟩ := apply_request_ok_inv P req resp h
  exact applyOps_ok_iff_error_none P t 0 req.ops

/-- Witness for C9 at concrete inputs. -/
theorem C9_result_ok_iff_error_absent_witness :
    (NetIfOpResult.mk 0 true none).ok = true ↔ (NetIfOpResult.mk 0 true none).error = none :=
  C9_result_ok_iff_error_absent P0 req0 ⟨NETIF_ABI_VERSION, true, [⟨0, true, none⟩]⟩ rfl
    ⟨0, true, none⟩ (by simp)

/-- C1 (amended): for every apply request whose `abi` differs from the
engine's, the call fails with `InvalidArgument`, and the boundary emits the
`write_error_out` envelope carrying the engine's abi value, `ok == false` and
a single top-level error object with code `InvalidArgument` — but no
`results` member (the synthetic per-operation result of
`NetIfApplyResponse::invalid_abi` is never used). -/
theorem C1_abi_mismatch_error_envelope (P : Platform) (j : Json) (req : NetIfApplyRequest)
    (hdec : decodeNetIfApplyRequest j = some req) (hne : req.abi ≠ NETIF_ABI_VERSION) :
    ∃ e, apply_request P req = .error e ∧ e.code = ErrorCode.InvalidArgument ∧
      tool_netif_apply_json P j = (ErrorCode.InvalidArgument.as_i32, errorEnvelope e) ∧
      (errorEnvelope e).getField "abi" = some (.num NETIF_ABI_VERSION) ∧
      (errorEnvelope e).getField "ok" = some (.bool false) ∧
      (errorEnvelope e).getField "error" = some (encodeForgeFfiError e) ∧
      (errorEnvelope e).getField "results" = none := by
  refine ⟨.invalid_argument
    ("abi 版本不匹配: expected=" ++ toString NETIF_ABI_VERSION ++ " got=" ++ toString req.abi),
    ?_, rfl, ?_, rfl, rfl, rfl, rfl⟩
  · simp [apply_request, hne]
  · simp [tool_netif_apply_json, apply_json_bytes, hdec, apply_request, hne,
      ForgeFfiError.invalid_argument, ErrorCode.as_i32]

/-- A concrete apply request payload whose `abi` field (2) differs from the
engine's compiled `ABI_VERSION` (1). -/
def reqJson1 : Json := .obj [("abi", .num 2), ("target", .obj []), ("ops", .arr [])]

/-- Counterexample for C1 as stated: at the mismatched-abi request
`reqJson1`, the envelope the boundary produces has no `results` member at
all — there is no synthetic per-operation result, and the envelope does not
even parse as a `NetIfApplyResponse`. -/
theorem C1_counterexample :
    decodeNetIfApplyRequest reqJson1 = some ⟨2, ⟨none, none⟩, []⟩ ∧
    (2 : Nat) ≠ NETIF_ABI_VERSION ∧
    (tool_netif_apply_json P0 reqJson1).2.getField "results" = none ∧
    decodeNetIfApplyResponse (tool_netif_apply_json P0 reqJson1).2 = none ∧
    ¬∃ rs, (tool_netif_apply_json P0 reqJson1).2.getField "results" = some (Json.arr rs) ∧
      rs.length = 1 := by
  refine ⟨rfl, by decide, rfl, rfl, ?_⟩
  rintro ⟨rs, h, -⟩
  have h0 : (tool_netif_apply_json P0 reqJson1).2.getField "results" = none := rfl
  rw [h0] at h
  exact Option.noConfusion h

/-- Witness for the amended C1 at concrete inputs. -/
theorem C1_abi_mismatch_error_envelope_witness :
    ∃ e, apply_request P0 ⟨2, ⟨none, none⟩, []⟩ = .error e ∧
      e.code = ErrorCode.InvalidArgument ∧
      tool_netif_apply_json P0 reqJson1 = (ErrorCode.InvalidArgument.as_i32, errorEnvelope e) ∧
      (errorEnvelope e).getField "abi" = some (.num NETIF_ABI_VERSION) ∧
      (errorEnvelope e).getField "ok" = some (.bool false) ∧
      (errorEnvelope e).getField "error" = some (encodeForgeFfiError e) ∧
      (errorEnvelope e).getField "results" = none :=
  C1_abi_mismatch_error_envelope P0 reqJson1 ⟨2, ⟨none, none⟩, []⟩ rfl (by decide)

/-- File name of the persisted systemd-networkd unit for a device
(`format!("99-forgeffi-{dev}.network")`). -/
def networkdFileName (dev : String) : String := "99-forgeffi-" ++ dev ++ ".network"

/-- Final path of the persisted unit (`dir.join(file_name)`). -/
def networkdFinalPath (dev : String) : String := networkdDir ++ "/" ++ networkdFileName dev

/-- Temporary path used by `write_atomic`
(`parent.join(format!(".{}.tmp.{}", file_name, pid))`). -/
def networkdTmpPath (w : LinuxWorld) (dev : String) : String :=
  networkdDir ++ "/." ++ networkdFileName dev ++ ".tmp." ++ toString w.pid

/-- Content of the persisted unit file. -/
def networkdFileContent (dev cidr : String) (gw : Option String) : String :=
  "[Match]\nName=" ++ dev ++ "\n\n[Network]\nDHCP=no\nAddress=" ++ cidr ++ "\n"
    ++ (match gw with
      | some s => if s ≠ "" then "Gateway=" ++ s ++ "\n" else ""
      | none => "")

/-- C6: on Linux, for a target not managed by NetworkManager, `SetIpv4Static`
first applies the address at runtime (the runtime `ip` effects `rt` precede
every persistence effect), then persists through the declarative
systemd-networkd file exactly when `/etc/systemd/network` exists — written to
a temporary path and renamed into place — and performs no file effect when
the directory is absent (failing `Unsupported` then).  The temporary path
differs from the final path. -/
theorem C6_set_ipv4_static_persistence (w : LinuxWorld) (t : ResolvedTarget)
    (ip : String) (pl : Nat) (gw : Option String) (d rt : List Effect)
    (hnm : nmcli_connection_for_dev w t.name = (.ok none, d))
    (hrt : apply_runtime_static_ipv4 w t.name (ip ++ "/" ++ toString pl) gw = (.ok (), rt))
    (hw : w.writeRes (networkdTmpPath w t.name)
      (networkdFileContent t.name (ip ++ "/" ++ toString pl) gw) = .ok)
    (hr : w.renameRes (networkdTmpPath w t.name) (networkdFinalPath t.name) = .ok) :
    apply_one_set_ipv4_static w t ip pl gw =
      ((if w.isDir networkdDir then .ok () else .error (.unsupported
          "未检测到 NetworkManager（nmcli）且系统未使用 systemd-networkd（缺少 /etc/systemd/network），无法持久化；已通过 ip 命令临时生效")),
        d ++ rt ++ (if w.isDir networkdDir then
          [.dirCheck networkdDir,
            .fsWrite (networkdTmpPath w t.name)
              (networkdFileContent t.name (ip ++ "/" ++ toString pl) gw),
            .fsRename (networkdTmpPath w t.name) (networkdFinalPath t.name)]
          else [.dirCheck networkdDir])) ∧
      networkdTmpPath w t.name ≠ networkdFinalPath t.name := by
  constructor
  · by_cases hdir : w.isDir networkdDir
    · have hw' := hw
      have hr' := hr
      simp only [networkdTmpPath, networkdFileName, networkdFileContent,
        networkdFinalPath, ne_eq, ite_not] at hw' hr'
      simp [apply_one_set_ipv4_static, hnm, hrt, persist_systemd_networkd_static_ipv4, hdir,
        write_atomic, hw', hr', networkdTmpPath, networkdFileName, networkdFileContent,
        networkdFinalPath]
    · simp only [apply_one_set_ipv4_static, hnm, hrt,
        persist_systemd_networkd_static_ipv4]
      rw [if_pos (by simp [hdir]), if_neg hdir, if_neg hdir]
  · intro h
    have hlen := congrArg String.length h
    have l1 : ("/." : String).length = 2 := rfl
    have l2 : (".tmp." : String).length = 5 := rfl
    have l3 : ("/" : String).length = 1 := rfl
    simp only [networkdTmpPath, networkdFinalPath, networkdFileName, networkdDir,
      String.length_append, l1, l2, l3] at hlen
    omega

/-- A concrete Linux world without NetworkManager, with
`/etc/systemd/network` present, and whose commands and filesystem calls all
succeed. -/
def worldNetworkd : LinuxWorld :=
  { cmd := fun _ _ => .exited true "" ""
    nmcliAvailable := false
    isDir := fun _ => true
    writeRes := fun _ _ => .ok
    renameRes := fun _ _ => .ok
    pid := 7 }

/-- Witness for C6 at concrete inputs. -/
theorem C6_set_ipv4_static_persistence_witness :
    apply_one_set_ipv4_static worldNetworkd ⟨1, "eth0"⟩ "10.0.0.2" 24 none =
      ((if worldNetworkd.isDir networkdDir then .ok () else .error (.unsupported
          "未检测到 NetworkManager（nmcli）且系统未使用 systemd-networkd（缺少 /etc/systemd/network），无法持久化；已通过 ip 命令临时生效")),
        [] ++ [.run "ip" ["addr", "flush", "dev", "eth0", "scope", "global"],
          .run "ip" ["addr", "add", "10.0.0.2/24", "dev", "eth0"]]
          ++ (if worldNetworkd.isDir networkdDir then
            [.dirCheck networkdDir,
              .fsWrite (networkdTmpPath worldNetworkd "eth0")
                (networkdFileContent "eth0" ("10.0.0.2" ++ "/" ++ toString 24) none),
              .fsRename (networkdTmpPath worldNetworkd "eth0") (networkdFinalPath "eth0")]
            else [.dirCheck networkdDir])) ∧
      networkdTmpPath worldNetworkd "eth0" ≠ networkdFinalPath "eth0" :=
  C6_set_ipv4_static_persistence worldNetworkd ⟨1, "eth0"⟩ "10.0.0.2" 24 none
    [] [.run "ip" ["addr", "flush", "dev", "eth0", "scope", "global"],
      .run "ip" ["addr", "add", "10.0.0.2/24", "dev", "eth0"]]
    rfl rfl rfl rfl

/-- Every character consumed by the `from_str` digit loop is a digit of the
radix. -/
theorem parseUIntDigits_mem_digit {radix bound : Nat} :
    ∀ {s : List Char} {acc v : Nat}, parseUIntDigits radix bound s acc = some v →
      ∀ c ∈ s, (digitVal radix c).isSome = true := by
  intro s
  induction s with
  | nil =>
    intro acc v _ c hc
    simp at hc
  | cons c0 rest ih =>
    intro acc v h c hc
    rcases hd : digitVal radix c0 with _ | d
    · simp only [parseUIntDigits, hd] at h
      exact Option.noConfusion h
    · simp only [parseUIntDigits, hd] at h
      by_cases hb : acc * radix + d > bound
      · rw [if_pos hb] at h
        exact absurd h (by simp)
      · rw [if_neg hb] at h
        rcases List.mem_cons.mp hc with rfl | hc
        · simp [hd]
        · exact ih h c hc

/-- A successful `from_str` run is either a `+`-stripped digit run or a plain
digit run. -/
theorem parseUInt_split {radix bound : Nat} {p : List Char} {v : Nat}
    (h : parseUInt radix bound p = some v) :
    (∃ rest, p = '+' :: rest ∧ parseUIntDigits radix bound rest 0 = some v) ∨
      parseUIntDigits radix bound p 0 = some v := by
  cases p with
  | nil => simp [parseUInt] at h
  | cons c rest =>
    by_cases hc : c = '+'
    · subst hc
      simp only [parseUInt, if_pos rfl] at h
      left
      refine ⟨rest, rfl, ?_⟩
      by_cases he : rest.isEmpty
      · rw [if_pos he] at h
        exact absurd h (by simp)
      · rwa [if_neg he] at h
    · right
      simpa [parseUInt, hc] using h

/-- A character that is neither `+` nor a digit of the radix cannot occur in
a string `from_str` accepts. -/
theorem parseUInt_not_mem {radix bound : Nat} {p : List Char} {v : Nat} {ch : Char}
    (h : parseUInt radix bound p = some v) (hd : digitVal radix ch = none) (hp : ch ≠ '+') :
    ch ∉ p := by
  intro hmem
  rcases parseUInt_split h with ⟨rest, rfl, hdig⟩ | hdig
  · rcases List.mem_cons.mp hmem with rfl | hmem
    · exact hp rfl
    · have := parseUIntDigits_mem_digit hdig ch hmem
      simp [hd] at this
  · have := parseUIntDigits_mem_digit hdig ch hmem
    simp [hd] at this

/-- The second character of a string `from_str` accepts is a digit. -/
theorem parseUInt_second_char {radix bound : Nat} {c1 c2 : Char} {rest : List Char} {v : Nat}
    (h : parseUInt radix bound (c1 :: c2 :: rest) = some v) :
    (digitVal radix c2).isSome = true := by
  rcases parseUInt_split h with ⟨r, heq, hdig⟩ | hdig
  · injection heq with h1 h2
    subst h2
    exact parseUIntDigits_mem_digit hdig c2 (by simp)
  · exact parseUIntDigits_mem_digit hdig c2 (by simp)

/-- `u8::from_str` rejects a component starting `0x`. -/
theorem parseUInt_zero_x (g : List Char) : parseUInt 10 255 ('0' :: 'x' :: g) = none := by
  have h0 : digitVal 10 '0' = some 0 := rfl
  have hx : digitVal 10 'x' = none := rfl
  rw [parseUInt]
  rw [if_neg (by decide)]
  simp [parseUIntDigits, h0, hx]

/-- `str::split` never yields an empty piece list. -/
theorem splitChar_ne_nil (sep : Char) (s : List Char) : splitChar sep s ≠ [] := by
  cases s with
  | nil => simp [splitChar]
  | cons c rest =>
    by_cases hc : c = sep
    · simp [splitChar, hc]
    · simp only [splitChar, if_neg hc]
      rcases h : splitChar sep rest with _ | ⟨g, gs⟩ <;> simp

/-- A non-separator head joins the first piece. -/
theorem splitChar_cons_ne (sep c : Char) (s : List Char) (hc : c ≠ sep) :
    ∃ g gs, splitChar sep s = g :: gs ∧ splitChar sep (c :: s) = (c :: g) :: gs := by
  rcases h : splitChar sep s with _ | ⟨g, gs⟩
  · exact absurd h (splitChar_ne_nil sep s)
  · exact ⟨g, gs, rfl, by simp [splitChar, hc, h]⟩

/-- Splitting a list that starts with a separator-free piece. -/
theorem splitChar_append (sep : Char) {p : List Char} (hp : sep ∉ p) (t : List Char) :
    splitChar sep (p ++ sep :: t) = p :: splitChar sep t := by
  induction p with
  | nil => simp [splitChar]
  | cons c cs ih =>
    have hc : c ≠ sep := fun h => hp (by simp [h])
    have ih' := ih (fun h => hp (List.mem_cons_of_mem _ h))
    simp [List.cons_append, splitChar, if_neg hc, ih']

/-- Splitting a separator-free list. -/
theorem splitChar_no_sep (sep : Char) {p : List Char} (hp : sep ∉ p) :
    splitChar sep p = [p] := by
  induction p with
  | nil => rfl
  | cons c cs ih =>
    have hc : c ≠ sep := fun h => hp (by simp [h])
    have ih' := ih (fun h => hp (List.mem_cons_of_mem _ h))
    simp [splitChar, if_neg hc, ih']

/-- `mapMOpt` succeeds exactly on pointwise-convertible lists. -/
theorem mapMOpt_eq_some_iff {α β : Type} (f : α → Option β) :
    ∀ (l : List α) (ys : List β), mapMOpt f l = some ys ↔
      List.Forall₂ (fun x y => f x = some y) l ys := by
  intro l
  induction l with
  | nil =>
    intro ys
    cases ys <;> simp [mapMOpt]
  | cons x xs ih =>
    intro ys
    constructor
    · intro h
      rcases hfx : f x with _ | y
      · simp [mapMOpt, hfx] at h
      · rcases hxs : mapMOpt f xs with _ | zs
        · simp [mapMOpt, hfx, hxs] at h
        · simp only [mapMOpt, hfx, hxs] at h
          injection h with h
          subst h
          exact List.Forall₂.cons hfx ((ih zs).1 hxs)
    · intro h
      cases h with
      | cons hfx htail =>
        rename_i y ys'
        simp [mapMOpt, hfx, (ih ys').2 htail]

/-- Inversion of `strip_prefix("0x")`. -/
theorem strip0x_eq_some {s h : List Char} (hs : strip0x s = some h) : s = '0' :: 'x' :: h := by
  cases s with
  | nil => simp [strip0x] at hs
  | cons c1 s1 =>
    cases s1 with
    | nil => simp [strip0x] at hs
    | cons c2 rest =>
      simp only [strip0x] at hs
      by_cases hc : c1 = '0' ∧ c2 = 'x'
      · rw [if_pos hc] at hs
        injection hs with hs
        rw [hc.1, hc.2, hs]
      · rw [if_neg hc] at hs
        cases hs

/-- `strip_prefix("0x")` on a `0x`-prefixed list. -/
theorem strip0x_0x (h : List Char) : strip0x ('0' :: 'x' :: h) = some h := by
  simp [strip0x]

/-- The hex netmask form of the spec: a `0x`-prefixed token whose remainder
is a valid 32-bit hexadecimal value. -/
def isHexMaskForm (s : List Char) : Prop :=
  ∃ h v, s = '0' :: 'x' :: h ∧ parseUInt 16 4294967295 h = some v

/-- The dotted-quad netmask form of the spec: exactly four dot-separated
components, each a valid `u8`. -/
def isDottedQuadForm (s : List Char) : Prop :=
  ∃ p0 p1 p2 p3 a b c d, splitChar '.' s = [p0, p1, p2, p3] ∧
    parseUInt 10 255 p0 = some a ∧ parseUInt 10 255 p1 = some b ∧
    parseUInt 10 255 p2 = some c ∧ parseUInt 10 255 p3 = some d

/-- C8: converting a netmask token yields the set-bit count of the 32-bit
mask value for the hex (`0x`-prefixed) form and for the dotted-quad form, and
yields no value for every other shape. -/
theorem C8_netmask_popcount :
    (∀ h v, parseUInt 16 4294967295 h = some v →
      parse_netmask_to_prefix_len ('0' :: 'x' :: h) = some (popCount v)) ∧
    (∀ p0 p1 p2 p3 a b c d,
      parseUInt 10 255 p0 = some a → parseUInt 10 255 p1 = some b →
      parseUInt 10 255 p2 = some c → parseUInt 10 255 p3 = some d →
      parse_netmask_to_prefix_len (p0 ++ '.' :: (p1 ++ '.' :: (p2 ++ '.' :: p3))) =
        some (popCount (beBytes a b c d))) ∧
    (∀ s, (parse_netmask_to_prefix_len s).isSome = true ↔
      (isHexMaskForm s ∨ isDottedQuadForm s)) := by
  have hdot : digitVal 10 '.' = none := rfl
  have hxd : digitVal 10 'x' = none := rfl
  have hplus : ('.' : Char) ≠ '+' := by decide
  refine ⟨?_, ?_, ?_⟩
  · intro h v hv
    simp [parse_netmask_to_prefix_len, strip0x_0x, hv]
  · intro p0 p1 p2 p3 a b c d h0 h1 h2 h3
    have n0 : '.' ∉ p0 := parseUInt_not_mem h0 hdot hplus
    have n1 : '.' ∉ p1 := parseUInt_not_mem h1 hdot hplus
    have n2 : '.' ∉ p2 := parseUInt_not_mem h2 hdot hplus
    have n3 : '.' ∉ p3 := parseUInt_not_mem h3 hdot hplus
    have hstrip : strip0x (p0 ++ '.' :: (p1 ++ '.' :: (p2 ++ '.' :: p3))) = none := by
      cases p0 with
      | nil => simp [parseUInt] at h0
      | cons c1 s1 =>
        cases s1 with
        | nil =>
          simp only [List.cons_append, List.nil_append, strip0x]
          rw [if_neg]
          rintro ⟨-, hh⟩
          exact absurd hh (by decide)
        | cons c2 s2 =>
          have hdig2 := parseUInt_second_char h0
          have hc2 : c2 ≠ 'x' := by
            intro hh
            rw [hh, hxd] at hdig2
            simp at hdig2
          simp only [List.cons_append, strip0x]
          rw [if_neg]
          rintro ⟨-, hh⟩
          exact hc2 hh
    have hsplit : splitChar '.' (p0 ++ '.' :: (p1 ++ '.' :: (p2 ++ '.' :: p3)))
        = [p0, p1, p2, p3] := by
      rw [splitChar_append '.' n0, splitChar_append '.' n1, splitChar_append '.' n2,
        splitChar_no_sep '.' n3]
    simp [parse_netmask_to_prefix_len, hstrip, hsplit, mapMOpt, h0, h1, h2, h3]
  · intro s
    constructor
    · intro hs
      rcases hstrip : strip0x s with _ | hex
      · right
        simp only [parse_netmask_to_prefix_len, hstrip] at hs
        rcases hmap : mapMOpt (parseUInt 10 255) (splitChar '.' s) with _ | ps
        · rw [hmap] at hs
          simp at hs
        · rw [hmap] at hs
          have hfa := (mapMOpt_eq_some_iff (parseUInt 10 255) (splitChar '.' s) ps).1 hmap
          obtain ⟨l, hl⟩ : ∃ l, splitChar '.' s = l := ⟨_, rfl⟩
          rw [hl] at hfa
          rcases ps with _ | ⟨a, ps⟩
          · simp at hs
          rcases ps with _ | ⟨b, ps⟩
          · simp at hs
          rcases ps with _ | ⟨c, ps⟩
          · simp at hs
          rcases ps with _ | ⟨d, ps⟩
          · simp at hs
          rcases ps with _ | ⟨e, ps⟩
          · cases hfa with
            | cons hp0 hfa =>
              rename_i p0 l0
              cases hfa with
              | cons hp1 hfa =>
                rename_i p1 l1
                cases hfa with
                | cons hp2 hfa =>
                  rename_i p2 l2
                  cases hfa with
                  | cons hp3 hfa =>
                    rename_i p3 l3
                    cases hfa
                    exact ⟨p0, p1, p2, p3, a, b, c, d, hl, hp0, hp1, hp2, hp3⟩
          · simp at hs
      · left
        have hseq := strip0x_eq_some hstrip
        simp only [parse_netmask_to_prefix_len, hstrip] at hs
        rcases hv : parseUInt 16 4294967295 hex with _ | v
        · rw [hv] at hs
          simp at hs
        · exact ⟨hex, v, hseq, hv⟩
    · rintro (⟨h, v, rfl, hv⟩ | ⟨p0, p1, p2, p3, a, b, c, d, hsp, h0, h1, h2, h3⟩)
      · simp [parse_netmask_to_prefix_len, strip0x_0x, hv]
      · have hstrip : strip0x s = none := by
          rcases hq : strip0x s with _ | hex
          · rfl
          · exfalso
            have hseq := strip0x_eq_some hq
            subst hseq
            obtain ⟨g1, gs1, hg1, hg1'⟩ := splitChar_cons_ne '.' 'x' hex (by decide)
            obtain ⟨g0, gs0, hg0, hg0'⟩ := splitChar_cons_ne '.' '0' ('x' :: hex) (by decide)
            rw [hg1'] at hg0
            injection hg0 with e1 e2
            rw [hg0'] at hsp
            injection hsp with ep0 _
            rw [← ep0, ← e1] at h0
            rw [parseUInt_zero_x] at h0
            exact Option.noConfusion h0
        simp [parse_netmask_to_prefix_len, hstrip, hsp, mapMOpt, h0, h1, h2, h3]

/-- Witness for C8 at a concrete input: `0xffffff00` converts to prefix
length 24. -/
theorem C8_netmask_popcount_witness :
    parse_netmask_to_prefix_len ('0' :: 'x' :: "ffffff00".toList) = some (popCount 4294967040) :=
  C8_netmask_popcount.1 "ffffff00".toList 4294967040 rfl

/-! ### Round-trip lemmas for the serde codecs -/

theorem isNull_str (s : String) : (Json.str s).isNull = false := rfl

theorem isNull_num (n : Nat) : (Json.num n).isNull = false := rfl

theorem isNull_boolv (b : Bool) : (Json.bool b).isNull = false := rfl

theorem isNull_encodeIpScope (x : IpScope) : (encodeIpScope x).isNull = false := by
  cases x <;> rfl

theorem isNull_encodeIpOrigin (x : IpOrigin) : (encodeIpOrigin x).isNull = false := by
  cases x <;> rfl

theorem isNull_encodeOperState (x : OperState) : (encodeOperState x).isNull = false := by
  cases x <;> rfl

theorem isNull_encodeForgeFfiError (e : ForgeFfiError) :
    (encodeForgeFfiError e).isNull = false := rfl

/-- Element-wise decoding inverts element-wise encoding. -/
theorem mapMOpt_map_of_rt {α β : Type} {enc : α → β} {dec : β → Option α}
    (hrt : ∀ x, dec (enc x) = some x) : ∀ l : List α, mapMOpt dec (l.map enc) = some l := by
  intro l
  induction l with
  | nil => rfl
  | cons x xs ih => simp [mapMOpt, hrt, ih]

theorem rt_ErrorCode (c : ErrorCode) : decodeErrorCode (encodeErrorCode c) = some c := by
  cases c <;> rfl

theorem rt_ForgeFfiError (e : ForgeFfiError) :
    decodeForgeFfiError (encodeForgeFfiError e) = some e := by
  obtain ⟨c, m⟩ := e
  simp [decodeForgeFfiError, encodeForgeFfiError, decodeReqField, Json.getField,
    lookupField, Json.asStr, rt_ErrorCode]

theorem rt_IfaceKind (x : IfaceKind) : decodeIfaceKind (encodeIfaceKind x) = some x := by
  cases x <;> rfl

theorem rt_AdminState (x : AdminState) : decodeAdminState (encodeAdminState x) = some x := by
  cases x <;> rfl

theorem rt_OperState (x : OperState) : decodeOperState (encodeOperState x) = some x := by
  cases x <;> rfl

theorem rt_IpScope (x : IpScope) : decodeIpScope (encodeIpScope x) = some x := by
  cases x <;> rfl

theorem rt_IpOrigin (x : IpOrigin) : decodeIpOrigin (encodeIpOrigin x) = some x := by
  cases x <;> rfl

theorem rt_IpAddrEntry (e : IpAddrEntry) :
    decodeIpAddrEntry (encodeIpAddrEntry e) = some e := by
  obtain ⟨ip, pl, scope, origin, flags⟩ := e
  cases scope <;> cases origin <;> cases flags <;>
    simp [decodeIpAddrEntry, encodeIpAddrEntry, decodeReqField, decodeOptField, Json.getField,
      lookupField, Json.asStr, Json.asNat, optField, rt_IpScope, rt_IpOrigin,
      isNull_encodeIpScope, isNull_encodeIpOrigin, isNull_num]

theorem rt_NetIfCapabilities (c : NetIfCapabilities) :
    decodeNetIfCapabilities (encodeNetIfCapabilities c) = some c := by
  obtain ⟨a, b, c', d, e, notes⟩ := c
  cases notes <;>
    simp [decodeNetIfCapabilities, encodeNetIfCapabilities, decodeReqField, decodeOptField,
      Json.getField, lookupField, Json.asStr, Json.asBool, optField, isNull_str]

theorem isNull_encodeNetIfCapabilities (c : NetIfCapabilities) :
    (encodeNetIfCapabilities c).isNull = false := rfl

set_option maxHeartbeats 3000000 in
theorem rt_NetInterface (n : NetInterface) :
    decodeNetInterface (encodeNetInterface n) = some n := by
  obtain ⟨if_index, name, display_name, kind, is_physical, admin_state, oper_state, flags,
    mac, mtu, speed_bps, ipv4, ipv6, capabilities⟩ := n
  cases display_name <;> cases is_physical <;> cases oper_state <;> cases mac <;>
    cases mtu <;> cases speed_bps <;>
    simp [decodeNetInterface, encodeNetInterface, decodeReqField, decodeOptField,
      decodeVecField, Json.getField, lookupField, Json.asStr, Json.asNat, Json.asBool,
      optField, rt_IfaceKind, rt_AdminState, rt_OperState, rt_NetIfCapabilities,
      mapMOpt_map_of_rt rt_IpAddrEntry, isNull_str, isNull_num, isNull_boolv,
      isNull_encodeOperState]

theorem rt_NetIfOpResult (r : NetIfOpResult) :
    decodeNetIfOpResult (encodeNetIfOpResult r) = some r := by
  obtain ⟨i, ok, e⟩ := r
  cases e <;>
    simp [decodeNetIfOpResult, encodeNetIfOpResult, decodeReqField, decodeOptField,
      Json.getField, lookupField, Json.asNat, Json.asBool, optField, rt_ForgeFfiError,
      isNull_encodeForgeFfiError]

/-- C5: serializing a list response or an apply response envelope to the wire
format and parsing the result yields the original value. -/
theorem C5_response_round_trip :
    (∀ r : NetIfListResponse, decodeNetIfListResponse (encodeNetIfListResponse r) = some r) ∧
    (∀ r : NetIfApplyResponse,
      decodeNetIfApplyResponse (encodeNetIfApplyResponse r) = some r) := by
  constructor
  · intro r
    obtain ⟨abi, items⟩ := r
    simp [decodeNetIfListResponse, encodeNetIfListResponse, decodeReqField, Json.getField,
      lookupField, Json.asNat, mapMOpt_map_of_rt rt_NetInterface]
  · intro r
    obtain ⟨abi, ok, results⟩ := r
    simp [decodeNetIfApplyResponse, encodeNetIfApplyResponse, decodeReqField, Json.getField,
      lookupField, Json.asNat, Json.asBool, mapMOpt_map_of_rt rt_NetIfOpResult]

end ForgeFFI
